import Mathlib

/-!
# ID-card server: shallow embedding of the request handlers

The handlers of `server.js` (and the duplicated ones of
`controllers/authController.js`) are embedded as pure functions over an explicit
`Store` (the four MongoDB collections).  Each handler takes the store, the
parsed request and the readings of the outside world it consumes (the clock,
the random bytes, the mail transport outcome, freshly generated document ids)
and returns the new store together with the HTTP response.

Modelling conventions.
* The database is reliable: a query or write only fails for the reasons the
  schema gives (a `required` path that is empty, a value that does not cast,
  a `unique` index that is violated).  Documents already in the store satisfy
  their schema, so re-saving a loaded document after assigning its fields
  does not fail.
* The cryptographic and token libraries (`crypto`, `bcryptjs`, `jsonwebtoken`)
  and the process environment are the fields of `Env`; what a theorem needs
  from them is a hypothesis of that theorem.
* Times are milliseconds since the epoch, as returned by `Date.now()`.
-/

namespace IdCardServer

/-! ## JavaScript strings -/

/-- The `length` of a JavaScript string: its number of UTF-16 code units. -/
def jsLength (s : String) : Nat :=
  (s.data.map fun c => if c.toNat < 0x10000 then 1 else 2).sum

/-- The code points `String.prototype.trim` removes: the ECMAScript `WhiteSpace`
and `LineTerminator` productions. -/
def isJsWhiteSpace (c : Char) : Bool :=
  c.toNat == 0x09 || c.toNat == 0x0A || c.toNat == 0x0B || c.toNat == 0x0C ||
  c.toNat == 0x0D || c.toNat == 0x20 || c.toNat == 0xA0 || c.toNat == 0x1680 ||
  (0x2000 ≤ c.toNat && c.toNat ≤ 0x200A) || c.toNat == 0x2028 || c.toNat == 0x2029 ||
  c.toNat == 0x202F || c.toNat == 0x205F || c.toNat == 0x3000 || c.toNat == 0xFEFF

/-- The characters of `s.trim()`. -/
def trimChars (cs : List Char) : List Char :=
  ((cs.dropWhile isJsWhiteSpace).reverse.dropWhile isJsWhiteSpace).reverse

/-- The method `String.prototype.trim`. -/
def jsTrim (s : String) : String := String.mk (trimChars s.data)

/-- JavaScript truthiness of a field that is either absent or a string:
`undefined` and `""` are falsy. -/
def truthy : Option String → Bool
  | none => false
  | some s => decide (s ≠ "")

/-- The expression `x || d` for a string-or-absent `x`. -/
def jsOr (x : Option String) (d : String) : String :=
  match x with
  | none => d
  | some s => if s = "" then d else s

/-- Splitting a list of characters at every occurrence of `sep`. -/
def splitChars (sep : Char) : List Char → List (List Char)
  | [] => [[]]
  | c :: cs =>
    match splitChars sep cs with
    | [] => [[]]
    | w :: ws => if c = sep then [] :: w :: ws else (c :: w) :: ws

/-- The method `String.prototype.split` with a one-character separator. -/
def jsSplit (sep : Char) (s : String) : List String :=
  (splitChars sep s.data).map String.mk

/-- The method `Array.prototype.join`. -/
def jsJoin (sep : String) : List String → String
  | [] => ""
  | [x] => x
  | x :: y :: ys => x ++ sep ++ jsJoin sep (y :: ys)

/-- One lower-case hexadecimal digit. -/
def hexDigit (n : Nat) : Char :=
  if n < 10 then Char.ofNat (48 + n) else Char.ofNat (87 + n)

/-- The characters of `Buffer.toString("hex")`: two digits per byte. -/
def hexChars : List Nat → List Char
  | [] => []
  | b :: bs => hexDigit (b % 256 / 16) :: hexDigit (b % 16) :: hexChars bs

/-- The call `buffer.toString("hex")` for a buffer given as its list of bytes. -/
def toHex (bytes : List Nat) : String := String.mk (hexChars bytes)

/-! ## Documents -/

/-- A document of the `Admin` model (`server.js`, `models/Admin.js`). -/
structure Admin where
  _id : String
  username : String
  email : String
  password : String
  role : String
  resetTokenHash : Option String
  resetTokenExpires : Option Nat
  deriving DecidableEq, Repr

/-- A document of the `Student` model of `server.js` (the pending collection). -/
structure Student where
  _id : String
  studentId : String
  cardType : String
  firstName : String
  lastName : String
  email : String
  program : String
  trxId : String
  amount : String
  paymentStatus : String
  requestType : String
  photo : Option String
  gdCopy : Option String
  oldIdImage : Option String
  documents : List String
  status : String
  rejectionReason : Option String
  createdAt : Nat
  updatedAt : Nat
  deriving DecidableEq, Repr

/-- A document of the `Application` model of `server.js` (the approved collection). -/
structure Application where
  _id : String
  studentId : String
  cardType : String
  firstName : String
  lastName : String
  email : String
  program : String
  trxId : String
  amount : String
  paymentStatus : String
  requestType : String
  photo : Option String
  gdCopy : Option String
  oldIdImage : Option String
  documents : List String
  approvedAt : Nat
  createdAt : Nat
  updatedAt : Nat
  deriving DecidableEq, Repr

/-- The `userInfo` sub-document of a payment. -/
structure UserInfo where
  displayName : Option String
  email : Option String
  uid : Option String
  deriving DecidableEq, Repr

/-- A document of the `Payment` model. -/
structure Payment where
  _id : String
  email : String
  trxId : String
  amount : Int
  type : String
  status : String
  userInfo : UserInfo
  createdAt : Nat
  deriving DecidableEq, Repr

/-- The four collections. -/
structure Store where
  admins : List Admin
  students : List Student
  applications : List Application
  payments : List Payment
  deriving DecidableEq, Repr

/-! ## Responses -/

/-- The `admin` object of a login response. -/
structure AdminView where
  id : String
  username : String
  email : String
  deriving DecidableEq, Repr

/-- The `payment` object of a create-payment response. -/
structure PaymentView where
  id : String
  trxId : String
  amount : Int
  status : String
  createdAt : Nat
  deriving DecidableEq, Repr

/-- The `data` object of a submit response. -/
structure StudentView where
  id : String
  studentId : String
  name : String
  status : String
  createdAt : Nat
  deriving DecidableEq, Repr

/-- The JSON bodies the handlers send, one constructor per shape. -/
inductive Body where
  /-- Shape `{ error }` -/
  | error (msg : String)
  /-- Shape `{ success: false, error }` -/
  | failure (msg : String)
  /-- Shape `{ success: true, message }` -/
  | success (msg : String)
  /-- Shape `{ message }` -/
  | message (msg : String)
  /-- Shape `{ success: true, token, admin }`, or `{ token, admin }` when `flag` is false -/
  | session (flag : Bool) (token : String) (admin : AdminView)
  /-- Shape `{ success: true, message, payment }` -/
  | paymentCreated (msg : String) (payment : PaymentView)
  /-- Shape `{ success: true, message, data }` -/
  | studentCreated (msg : String) (data : StudentView)
  /-- Shape `{ success: true, data: { pendingApplications, totalPending } }` -/
  | dashboard (pendingApplications : List Student) (totalPending : Nat)
  /-- Shape `{ success: true, data }` with a pending record -/
  | pendingRecord (data : Student)
  /-- Shape `{ success: true, data }` with an approved record -/
  | approvedRecord (data : Application)
  /-- Shape `{ success: true, payments }` -/
  | payments (list : List Payment)
  /-- Shape `{ success: true, data }` with the list of all pending-collection records -/
  | studentList (data : List Student)
  deriving DecidableEq, Repr

/-- An HTTP response: status code and JSON body. -/
structure Response where
  status : Nat
  body : Body
  deriving DecidableEq, Repr

/-! ## The outside world -/

/-- The claims object given to `jwt.sign`. -/
structure JwtPayload where
  id : String
  username : Option String
  deriving DecidableEq, Repr

/-- The libraries and process environment the handlers call. -/
structure Env where
  /-- The variable `process.env.JWT_SECRET` -/
  JWT_SECRET : String
  /-- The variable `process.env.JWT_EXPIRE` -/
  JWT_EXPIRE : Option String
  /-- The variable `process.env.FRONTEND_URL`, as interpolated into a template string -/
  FRONTEND_URL : String
  /-- The digest `crypto.createHash("sha256").update(x).digest("hex")` -/
  sha256Hex : String → String
  /-- The call `bcrypt.hash(password, rounds)` -/
  bcryptHash : String → Nat → String
  /-- The call `bcrypt.compare(password, hash)` -/
  bcryptCompare : String → String → Bool
  /-- The call `jwt.sign(payload, secret, { expiresIn })` evaluated at a given time -/
  jwtSign : JwtPayload → String → String → Nat → String
  /-- The call `jwt.verify(token, secret)` evaluated at a given time; `none` when it throws -/
  jwtVerify : String → String → Nat → Option JwtPayload
  /-- The global `encodeURIComponent` -/
  encodeURIComponent : String → String

/-! ## Administrator collection -/

/-- The query `Admin.findOne({ username })`. -/
def findAdminByUsername (db : Store) (username : String) : Option Admin :=
  db.admins.find? fun a => decide (a.username = username)

/-- The query `Admin.findOne({ email })`. -/
def findAdminByEmail (db : Store) (email : String) : Option Admin :=
  db.admins.find? fun a => decide (a.email = email)

/-- The call `admin.save()` for a loaded administrator: the stored document with the same
`_id` is replaced. -/
def saveAdmin (db : Store) (admin : Admin) : Store :=
  { db with admins := db.admins.map fun a => if a._id = admin._id then admin else a }

/-! ## Authentication (`server.js`) -/

/-- The body of `POST /api/auth/login`. -/
structure LoginBody where
  username : Option String
  password : Option String
  deriving DecidableEq, Repr

/-- The body of `POST /api/auth/forgot-password`. -/
structure ForgotBody where
  email : Option String
  deriving DecidableEq, Repr

/-- The body of `POST /api/auth/reset-password`. -/
structure ResetBody where
  email : Option String
  token : Option String
  newPassword : Option String
  deriving DecidableEq, Repr

/-- The store after a request, and the response sent. -/
structure Outcome where
  db : Store
  response : Response
  deriving DecidableEq, Repr

/-- The message handed to the mail transport. -/
structure Mail where
  recipient : String
  resetLink : String
  deriving DecidableEq, Repr

/-- The outcome of a forgot-password request: store, response, and the mail
that was sent, if any. -/
structure ForgotOutcome where
  db : Store
  response : Response
  mail : Option Mail
  deriving DecidableEq, Repr

namespace Server

/-- Handler of `POST /api/auth/login` in `server.js`. -/
def login (env : Env) (db : Store) (now : Nat) (body : LoginBody) : Response :=
  match body.username, body.password with
  | some username, some password =>
    if username = "" ∨ password = "" then
      ⟨400, .error "Username and password are required"⟩
    else
      match findAdminByUsername db username with
      | none => ⟨401, .error "Invalid credentials"⟩
      | some admin =>
        if env.bcryptCompare password admin.password = false then
          ⟨401, .error "Invalid credentials"⟩
        else
          let token := env.jwtSign ⟨admin._id, some admin.username⟩ env.JWT_SECRET
            (jsOr env.JWT_EXPIRE "1h") now
          ⟨200, .session true token ⟨admin._id, admin.username, admin.email⟩⟩
  | _, _ => ⟨400, .error "Username and password are required"⟩

/-- The function `authMiddleware` of `server.js`: either the response it sends
itself, or the `adminId` with which it calls `next()`. -/
def authMiddleware (env : Env) (now : Nat) (authorization : Option String) :
    Except Response String :=
  match authorization.bind fun h => (jsSplit ' ' h)[1]? with
  | none => .error ⟨401, .error "No token provided"⟩
  | some token =>
    if token = "" then .error ⟨401, .error "No token provided"⟩
    else
      match env.jwtVerify token env.JWT_SECRET now with
      | none => .error ⟨401, .error "Invalid token"⟩
      | some decoded => .ok decoded.id

/-- Handler of `POST /api/auth/forgot-password` in `server.js`.  `randomBytes` is
the result of `crypto.randomBytes(32)`; `smtpVerify` and `sendMail` tell whether
`transporter.verify()` and `transporter.sendMail()` succeed. -/
def forgotPassword (env : Env) (db : Store) (now : Nat) (randomBytes : List Nat)
    (smtpVerify sendMail : Bool) (body : ForgotBody) : ForgotOutcome :=
  match body.email with
  | none => ⟨db, ⟨400, .error "Email is required"⟩, none⟩
  | some email =>
    if email = "" then ⟨db, ⟨400, .error "Email is required"⟩, none⟩
    else
      match findAdminByEmail db email with
      | none => ⟨db, ⟨200, .success "If the email exists, a reset link will be sent."⟩, none⟩
      | some admin =>
        let token := toHex randomBytes
        let tokenHash := env.sha256Hex token
        let db1 := saveAdmin db
          { admin with resetTokenHash := some tokenHash,
                       resetTokenExpires := some (now + 60 * 60 * 1000) }
        let resetLink := env.FRONTEND_URL ++ "/reset-password?token=" ++ token ++ "&email="
          ++ env.encodeURIComponent email
        if smtpVerify = false then
          ⟨db1, ⟨500, .error "Email service temporarily unavailable"⟩, none⟩
        else if sendMail = false then
          ⟨db1, ⟨500, .error "Failed to process password reset request"⟩, none⟩
        else
          ⟨db1, ⟨200, .success "Password reset link has been sent to your email."⟩,
            some ⟨email, resetLink⟩⟩

/-- Handler of `POST /api/auth/reset-password` in `server.js`. -/
def resetPassword (env : Env) (db : Store) (now : Nat) (body : ResetBody) : Outcome :=
  match body.email, body.token, body.newPassword with
  | some email, some token, some newPassword =>
    if email = "" ∨ token = "" ∨ newPassword = "" then
      ⟨db, ⟨400, .error "All fields are required"⟩⟩
    else if jsLength newPassword < 6 then
      ⟨db, ⟨400, .error "Password must be at least 6 characters long"⟩⟩
    else
      match findAdminByEmail db email with
      | none => ⟨db, ⟨400, .error "Invalid or expired reset token"⟩⟩
      | some admin =>
        match admin.resetTokenHash, admin.resetTokenExpires with
        | some storedHash, some expires =>
          if storedHash = "" then
            ⟨db, ⟨400, .error "Invalid or expired reset token"⟩⟩
          else if expires < now then
            ⟨db, ⟨400, .error "Reset token has expired"⟩⟩
          else if env.sha256Hex token ≠ storedHash then
            ⟨db, ⟨400, .error "Invalid reset token"⟩⟩
          else
            ⟨saveAdmin db
              { admin with password := env.bcryptHash newPassword 12,
                           resetTokenHash := none,
                           resetTokenExpires := none },
             ⟨200, .success
               "Password reset successfully. You can now login with your new password."⟩⟩
        | _, _ => ⟨db, ⟨400, .error "Invalid or expired reset token"⟩⟩
  | _, _, _ => ⟨db, ⟨400, .error "All fields are required"⟩⟩

end Server

namespace AuthController

/-- The function `exports.login` of `controllers/authController.js`; the method
`comparePassword` of `models/Admin.js` is `bcrypt.compare` against the stored
password. -/
def login (env : Env) (db : Store) (now : Nat) (body : LoginBody) : Response :=
  match body.username, body.password with
  | some username, some password =>
    if username = "" ∨ password = "" then
      ⟨400, .error "Username and password are required."⟩
    else
      match findAdminByUsername db username with
      | none => ⟨401, .error "Invalid credentials."⟩
      | some admin =>
        if env.bcryptCompare password admin.password = false then
          ⟨401, .error "Invalid credentials."⟩
        else
          let token := env.jwtSign ⟨admin._id, none⟩ env.JWT_SECRET "8h" now
          ⟨200, .session false token ⟨admin._id, admin.username, admin.email⟩⟩
  | _, _ => ⟨400, .error "Username and password are required."⟩

end AuthController

/-! ## JavaScript values in a JSON body -/

/-- A JavaScript number, by its exact value (rounding to binary64 is not
modelled). -/
inductive JsNum where
  | nan
  | fin (q : ℚ)
  | inf (negative : Bool)
  deriving DecidableEq, Repr

/-- The value of a scalar field of a JSON body; `undefined` when the field is
absent. -/
inductive JsVal where
  | undefined
  | null
  | bool (b : Bool)
  | num (x : JsNum)
  | str (s : String)
  deriving DecidableEq, Repr

/-- The abstract operation `ToBoolean`. -/
def toBoolean : JsVal → Bool
  | .undefined => false
  | .null => false
  | .bool b => b
  | .num .nan => false
  | .num (.fin q) => decide (q ≠ 0)
  | .num (.inf _) => true
  | .str s => decide (s ≠ "")

/-- The value of `c` as a digit in the given radix, if it is one. -/
def digitOf (radix : Nat) (c : Char) : Option Nat :=
  let d : Option Nat :=
    if 48 ≤ c.toNat ∧ c.toNat ≤ 57 then some (c.toNat - 48)
    else if 97 ≤ c.toNat ∧ c.toNat ≤ 122 then some (c.toNat - 87)
    else if 65 ≤ c.toNat ∧ c.toNat ≤ 90 then some (c.toNat - 55)
    else none
  d.filter fun n => decide (n < radix)

/-- The longest prefix of digits of the given radix, as digit values, and the
rest of the input. -/
def takeDigits (radix : Nat) : List Char → List Nat × List Char
  | [] => ([], [])
  | c :: cs =>
    match digitOf radix c with
    | some d => (d :: (takeDigits radix cs).1, (takeDigits radix cs).2)
    | none => ([], c :: cs)

/-- The number written by a list of digits, most significant first. -/
def digitsValue (radix : Nat) (ds : List Nat) : Nat :=
  ds.foldl (fun n d => radix * n + d) 0

/-- The production `StrUnsignedDecimalLiteral` without `Infinity`: digits, an
optional fraction and an optional exponent; `none` when the input is not one. -/
def unsignedDecimal (cs : List Char) : Option ℚ :=
  let ip := takeDigits 10 cs
  let fp : List Nat × List Char :=
    match ip.2 with
    | '.' :: r => takeDigits 10 r
    | r => ([], r)
  if ip.1 = [] ∧ fp.1 = [] then none
  else
    let mant : ℚ := (digitsValue 10 ip.1 : ℚ) + (digitsValue 10 fp.1 : ℚ) / 10 ^ fp.1.length
    match fp.2 with
    | [] => some mant
    | e :: r3 =>
      if e = 'e' ∨ e = 'E' then
        let sg : Bool × List Char :=
          match r3 with
          | '-' :: r => (true, r)
          | '+' :: r => (false, r)
          | r => (false, r)
        let ep := takeDigits 10 sg.2
        if ep.1 = [] ∨ ep.2 ≠ [] then none
        else if sg.1 then some (mant / 10 ^ digitsValue 10 ep.1)
        else some (mant * 10 ^ digitsValue 10 ep.1)
      else none

/-- A `0x`, `0o` or `0b` literal body: all of the input must be digits. -/
def nonDecimalLiteral (radix : Nat) (cs : List Char) : JsNum :=
  if (takeDigits radix cs).1 = [] ∨ (takeDigits radix cs).2 ≠ [] then .nan
  else .fin (digitsValue radix (takeDigits radix cs).1)

/-- The abstract operation `StringToNumber`. -/
def stringToNumber (s : String) : JsNum :=
  match trimChars s.data with
  | [] => .fin 0
  | '0' :: 'x' :: r => nonDecimalLiteral 16 r
  | '0' :: 'X' :: r => nonDecimalLiteral 16 r
  | '0' :: 'o' :: r => nonDecimalLiteral 8 r
  | '0' :: 'O' :: r => nonDecimalLiteral 8 r
  | '0' :: 'b' :: r => nonDecimalLiteral 2 r
  | '0' :: 'B' :: r => nonDecimalLiteral 2 r
  | cs =>
    let sg : Bool × List Char :=
      match cs with
      | '-' :: r => (true, r)
      | '+' :: r => (false, r)
      | r => (false, r)
    if sg.2 = "Infinity".data then .inf sg.1
    else
      match unsignedDecimal sg.2 with
      | none => .nan
      | some q => .fin (if sg.1 then -q else q)

/-- The abstract operation `ToNumber`. -/
def toNumber : JsVal → JsNum
  | .undefined => .nan
  | .null => .fin 0
  | .bool b => .fin (if b then 1 else 0)
  | .num x => x
  | .str s => stringToNumber s

/-- The comparison `x <= 0` on numbers. -/
def leZero : JsNum → Bool
  | .nan => false
  | .fin q => decide (q ≤ 0)
  | .inf negative => negative

/-- The first significant decimal digit of a positive rational `n / d`. -/
def leadingDigit (n d : Nat) : Nat :=
  if d ≤ n then (n / d) / 10 ^ Nat.log 10 (n / d)
  else if d ≤ n * 10 ^ Nat.log 10 (d / n) then n * 10 ^ Nat.log 10 (d / n) / d
  else n * 10 ^ (Nat.log 10 (d / n) + 1) / d

/-- The call `parseInt(s)` on a string, radix absent: leading white space, a
sign, an optional `0x`, then the longest run of digits; `none` is `NaN`. -/
def parseIntString (s : String) : Option Int :=
  let sg : Bool × List Char :=
    match s.data.dropWhile isJsWhiteSpace with
    | '-' :: r => (true, r)
    | '+' :: r => (false, r)
    | r => (false, r)
  let rd : Nat × List Char :=
    match sg.2 with
    | '0' :: 'x' :: r => (16, r)
    | '0' :: 'X' :: r => (16, r)
    | r => (10, r)
  if (takeDigits rd.1 rd.2).1 = [] then none
  else if sg.1 then some (-(digitsValue rd.1 (takeDigits rd.1 rd.2).1 : Int))
  else some (digitsValue rd.1 (takeDigits rd.1 rd.2).1 : Int)

/-- The call `parseInt(x)` on a number, which first converts it to a string:
decimal notation when `1e-6 ≤ |x| < 1e21`, whose integer part is read, and
exponent notation `d.ddde±n` otherwise, of which the leading digit is read. -/
def parseIntNumber : JsNum → Option Int
  | .nan => none
  | .inf _ => none
  | .fin q =>
    if q = 0 then some 0
    else if 1 / 10 ^ 6 ≤ |q| ∧ |q| < 10 ^ 21 then
      some (Int.sign q.num * (q.num.natAbs / q.den : Nat))
    else some (Int.sign q.num * (leadingDigit q.num.natAbs q.den : Nat))

/-- The call `parseInt(v)`; `none` is `NaN`. -/
def parseInt : JsVal → Option Int
  | .undefined => none
  | .null => none
  | .bool _ => none
  | .num x => parseIntNumber x
  | .str s => parseIntString s

/-! ## Saving documents -/

/-- The error with which `save()` rejects: a Mongoose `ValidationError` with its
`(path, message)` entries, or the driver error with `code === 11000` and the
path of its `keyPattern`. -/
inductive SaveError where
  | validation (errors : List (String × String))
  | duplicateKey (path : String)
  deriving DecidableEq, Repr

/-- The message of the `required` validator. -/
def requiredMessage (path : String) : String := "Path `" ++ path ++ "` is required."

/-- The validator `required: true` on a string path: it rejects the empty string. -/
def checkRequired (path value : String) : List (String × String) :=
  if value = "" then [(path, requiredMessage path)] else []

/-- The property `error.message` of a `ValidationError`. -/
def validationMessage (model : String) (errors : List (String × String)) : String :=
  model ++ " validation failed: " ++ jsJoin ", " (errors.map fun e => e.1 ++ ": " ++ e.2)

/-- The cast of `parseInt(amount)` to the `Number` path `amount`: `NaN` does not
cast. -/
def castAmount (amount : Option Int) : List (String × String) :=
  match amount with
  | some _ => []
  | none =>
    [("amount", "Cast to Number failed for value \"NaN\" (type number) at path \"amount\"")]

/-- The validation of a new `Payment` against the schema of `server.js`:
`email` and `trxId` are required strings, `amount` is a required number.  The
entries are listed in schema order; their order only shows in the text of
the message. -/
def validatePayment (email trxId : String) (amount : Option Int) : List (String × String) :=
  checkRequired "email" email ++ checkRequired "trxId" trxId ++ castAmount amount

/-- The call `payment.save()` for a new `Payment` built from the given paths:
validation, then the insert, which the unique index on `trxId` rejects when a
stored payment has the same `trxId`. -/
def savePayment (db : Store) (_id email trxId : String) (amount : Option Int)
    (type status : String) (userInfo : UserInfo) (createdAt : Nat) :
    Except SaveError (Store × Payment) :=
  match amount, validatePayment email trxId amount with
  | some n, [] =>
    if db.payments.any (fun p => decide (p.trxId = trxId)) then .error (.duplicateKey "trxId")
    else
      .ok ({ db with payments := db.payments ++
              [⟨_id, email, trxId, n, type, status, userInfo, createdAt⟩] },
           ⟨_id, email, trxId, n, type, status, userInfo, createdAt⟩)
  | _, errors => .error (.validation errors)

/-- The validation of a new `Student` against the schema of `server.js`: nine
required string paths, in schema order. -/
def validateStudent (doc : Student) : List (String × String) :=
  checkRequired "studentId" doc.studentId ++ checkRequired "cardType" doc.cardType ++
  checkRequired "firstName" doc.firstName ++ checkRequired "lastName" doc.lastName ++
  checkRequired "email" doc.email ++ checkRequired "program" doc.program ++
  checkRequired "trxId" doc.trxId ++ checkRequired "amount" doc.amount ++
  checkRequired "requestType" doc.requestType

/-- The call `student.save()` for a new `Student`: validation, then the insert.
The schema declares no unique index, so the insert is never rejected. -/
def saveNewStudent (db : Store) (doc : Student) : Except SaveError Store :=
  match validateStudent doc with
  | [] => .ok { db with students := db.students ++ [doc] }
  | errors => .error (.validation errors)

/-- The call `student.save()` for a loaded student whose fields were assigned:
the stored document with the same `_id` is replaced, and the option
`timestamps: true` sets `updatedAt` when a field was modified. -/
def saveStudent (db : Store) (loaded assigned : Student) (now : Nat) : Store :=
  { db with students := db.students.map fun s =>
      if s._id = loaded._id then
        (if assigned = loaded then loaded else { assigned with updatedAt := now })
      else s }

/-! ## Payments (`server.js`, `routes/paymentRoutes.js`) -/

/-- The body of `POST /api/payments/create`. -/
structure PaymentBody where
  email : Option String
  trxId : Option String
  amount : JsVal
  type : Option String
  userInfo : Option UserInfo
  deriving DecidableEq, Repr

/-- A destructuring default: it applies when the field is `undefined`. -/
def JsVal.withDefault (v d : JsVal) : JsVal :=
  match v with
  | .undefined => d
  | _ => v

namespace Server

/-- Handler of `POST /api/payments/create`; `routes/paymentRoutes.js` holds the
same handler.  `newId` is the `_id` generated for the new document. -/
def createPayment (db : Store) (now : Nat) (newId : String) (body : PaymentBody) : Outcome :=
  let email := body.email.getD ""
  let trxId := body.trxId.getD ""
  let amount := body.amount.withDefault (.num (.fin 0))
  let type := body.type.getD "topup"
  let userInfo := body.userInfo.getD ⟨none, none, none⟩
  if email = "" ∨ trxId = "" ∨ toBoolean amount = false then
    ⟨db, ⟨400, .failure "Email, TRX ID and amount are required"⟩⟩
  else if leZero (toNumber amount) = true then
    ⟨db, ⟨400, .failure "Amount must be greater than 0"⟩⟩
  else
    match db.payments.find? fun p => decide (p.trxId = trxId) with
    | some _ =>
      ⟨db, ⟨400, .failure "This TRX ID is already used. Please use a different TRX ID."⟩⟩
    | none =>
      match savePayment db newId (jsTrim email) (jsTrim trxId) (parseInt amount) type "pending"
          userInfo now with
      | .ok (db1, payment) =>
        ⟨db1, ⟨201, .paymentCreated "Payment request submitted successfully!"
          ⟨payment._id, payment.trxId, payment.amount, payment.status, payment.createdAt⟩⟩⟩
      | .error (.duplicateKey _) => ⟨db, ⟨400, .failure "TRX ID already exists"⟩⟩
      | .error (.validation errors) =>
        ⟨db, ⟨500, .failure ("Internal server error: " ++ validationMessage "Payment" errors)⟩⟩

end Server

/-! ## Application intake (`server.js`) -/

/-- The text fields of the multipart body of `POST /api/students`. -/
structure SubmitBody where
  studentId : Option String
  cardType : Option String
  firstName : Option String
  lastName : Option String
  email : Option String
  program : Option String
  trxId : Option String
  amount : Option String
  requestType : Option String
  /-- A `status` value sent by the client; the handler never reads it -/
  status : Option String
  deriving DecidableEq, Repr

/-- The stored file names of `req.files`: the first file of `photo`, `gdCopy`
and `oldIdImage` if any, and the files of `documents`. -/
structure Files where
  photo : Option String
  gdCopy : Option String
  oldIdImage : Option String
  documents : List String
  deriving DecidableEq, Repr

/-- The lookup `req.body[field]`. -/
def SubmitBody.field (body : SubmitBody) (field : String) : Option String :=
  if field = "studentId" then body.studentId
  else if field = "cardType" then body.cardType
  else if field = "firstName" then body.firstName
  else if field = "lastName" then body.lastName
  else if field = "email" then body.email
  else if field = "program" then body.program
  else if field = "trxId" then body.trxId
  else if field = "amount" then body.amount
  else if field = "requestType" then body.requestType
  else if field = "status" then body.status
  else none

/-- The constant `requiredFields` of the submit handler. -/
def requiredFields : List String := ["studentId", "firstName", "lastName", "email", "trxId"]

/-- The list `missingFields` of the submit handler. -/
def missingFields (body : SubmitBody) : List String :=
  requiredFields.filter fun field => !truthy (body.field field)

namespace Server

/-- The object `studentData` of the submit handler, with the generated `_id` and
the timestamps of the new document. -/
def studentData (now : Nat) (newId : String) (body : SubmitBody) (files : Files) : Student :=
  { _id := newId
    studentId := jsTrim (body.studentId.getD "")
    cardType := jsOr body.cardType "student"
    firstName := jsTrim (body.firstName.getD "")
    lastName := jsTrim (body.lastName.getD "")
    email := jsTrim (body.email.getD "")
    program := jsOr body.program "Not Specified"
    trxId := jsTrim (body.trxId.getD "")
    amount := jsOr body.amount "0"
    requestType := jsOr body.requestType "new"
    status := "pending"
    paymentStatus := "Pending"
    photo := files.photo
    gdCopy := files.gdCopy
    oldIdImage := files.oldIdImage
    documents := files.documents
    rejectionReason := none
    createdAt := now
    updatedAt := now }

/-- Handler of `POST /api/students` in `server.js`. -/
def submit (db : Store) (now : Nat) (newId : String) (body : SubmitBody) (files : Files) :
    Outcome :=
  if missingFields body ≠ [] then
    ⟨db, ⟨400, .failure ("Missing required fields: " ++ jsJoin ", " (missingFields body))⟩⟩
  else
    match saveNewStudent db (studentData now newId body files) with
    | .ok db1 =>
      ⟨db1, ⟨201, .studentCreated "Application submitted successfully!"
        ⟨newId, (studentData now newId body files).studentId,
          (studentData now newId body files).firstName ++ " " ++
            (studentData now newId body files).lastName,
          (studentData now newId body files).status,
          (studentData now newId body files).createdAt⟩⟩⟩
    | .error (.duplicateKey path) =>
      ⟨db, ⟨400, .failure
        ((if path = "studentId" then "Student ID" else "TRX ID") ++
          " already exists in our system")⟩⟩
    | .error (.validation errors) =>
      ⟨db, ⟨400, .failure ("Validation error: " ++ jsJoin ", " (errors.map fun e => e.2))⟩⟩

end Server

/-! ## Application review (`server.js`) -/

/-- The body of `POST /api/admin/application/:id/action`. -/
structure ActionBody where
  action : JsVal
  reason : Option String
  deriving DecidableEq, Repr

/-- The document given to `Application.create` on approval, with the generated
`_id` and the timestamps of the new document. -/
def approvedCopy (student : Student) (now : Nat) (newId : String) : Application :=
  { _id := newId
    studentId := student.studentId
    cardType := student.cardType
    firstName := student.firstName
    lastName := student.lastName
    email := student.email
    program := student.program
    trxId := student.trxId
    amount := student.amount
    paymentStatus := "Approved"
    requestType := student.requestType
    photo := student.photo
    gdCopy := student.gdCopy
    oldIdImage := student.oldIdImage
    documents := student.documents
    approvedAt := now
    createdAt := now
    updatedAt := now }

/-- The query `Student.findById(id)`, for an `id` that is the `_id` of a stored
document or a well-formed `_id` that is not stored.  The cast of a malformed
`id`, which raises a `CastError`, is not modelled. -/
def findStudentById (db : Store) (id : String) : Option Student :=
  db.students.find? fun s => decide (s._id = id)

namespace Server

/-- Handler of `POST /api/admin/application/:id/action` in `server.js`, behind
`authMiddleware`. -/
def applicationAction (db : Store) (now : Nat) (newId : String) (id : String)
    (body : ActionBody) : Outcome :=
  if toBoolean body.action = false ∨
      ¬ (body.action = .str "approve" ∨ body.action = .str "reject") then
    ⟨db, ⟨400, .error "Valid action (approve/reject) is required"⟩⟩
  else
    match findStudentById db id with
    | none => ⟨db, ⟨404, .error "Application not found"⟩⟩
    | some student =>
      if body.action = .str "approve" then
        ⟨{ db with
            applications := db.applications ++ [approvedCopy student now newId]
            students := db.students.eraseP fun s => decide (s._id = id) },
         ⟨200, .success "Application approved successfully"⟩⟩
      else
        ⟨saveStudent db student
            { student with
                status := "rejected"
                rejectionReason :=
                  if truthy body.reason then body.reason else student.rejectionReason }
            now,
         ⟨200, .success "Application rejected successfully"⟩⟩

end Server

/-! ## A concrete environment, used to instantiate the theorems -/

/-- A toy environment: transparent stand-ins for the digest, the password hash
and the session token. -/
def demoEnv : Env where
  JWT_SECRET := "secret"
  JWT_EXPIRE := none
  FRONTEND_URL := "http://localhost:5173"
  sha256Hex := fun x => "sha256:" ++ x
  bcryptHash := fun password _ => "bcrypt:" ++ password
  bcryptCompare := fun password hash => decide (hash = "bcrypt:" ++ password)
  jwtSign := fun payload _ _ _ => "jwt." ++ payload.id
  jwtVerify := fun token _ _ =>
    if token = "jwt.a1" then some ⟨"a1", some "admin"⟩ else none
  encodeURIComponent := fun x => x

/-- An administrator whose password is `hunter2`. -/
def demoAdmin : Admin :=
  ⟨"a1", "admin", "admin@bubt.edu", "bcrypt:hunter2", "admin", none, none⟩

/-- A store holding `demoAdmin` only. -/
def demoStore : Store := ⟨[demoAdmin], [], [], []⟩

/-- A pending application used to instantiate the theorems. -/
def demoStudent : Student :=
  { _id := "s1", studentId := "S1", cardType := "student", firstName := "Amina",
    lastName := "Rahman", email := "amina@bubt.edu", program := "CSE", trxId := "T1",
    amount := "500", paymentStatus := "Pending", requestType := "new", photo := some "p.png",
    gdCopy := none, oldIdImage := none, documents := [], status := "pending",
    rejectionReason := none, createdAt := 1, updatedAt := 1 }

/-- A store holding `demoStudent` only. -/
def demoPending : Store := ⟨[], [demoStudent], [], []⟩

/-- A required field of the submit body that is absent, empty, or empty after
trimming (the empty string trims to itself). -/
def emptyAfterTrim : Option String → Prop
  | none => True
  | some s => jsTrim s = ""

instance (v : Option String) : Decidable (emptyAfterTrim v) := by
  cases v <;> unfold emptyAfterTrim <;> infer_instance

/-- A complete submit body for the student `S1`, with the given student id and
first name. -/
def demoSubmit (studentId firstName : Option String) : SubmitBody :=
  ⟨studentId, none, firstName, some "Rahman", some "amina@bubt.edu", none, some "T1",
    some "500", none, none⟩

/-- A submission without files. -/
def noFiles : Files := ⟨none, none, none, []⟩

/-- No two payments of the list share a `trxId`: what the unique index of the
`Payment` schema maintains. -/
def uniqueTrx (payments : List Payment) : Prop :=
  payments.Pairwise fun p q => p.trxId ≠ q.trxId

/-- A create-payment request as it reaches the handler: the clock, the
generated `_id` and the body. -/
structure PaymentRequest where
  now : Nat
  newId : String
  body : PaymentBody
  deriving DecidableEq, Repr

/-- The store after a sequence of create-payment requests. -/
def runCreates (db : Store) (requests : List PaymentRequest) : Store :=
  requests.foldl (fun s r => (Server.createPayment s r.now r.newId r.body).db) db

/-- The empty database. -/
def emptyStore : Store := ⟨[], [], [], []⟩

/-- A valid create-payment body with the transaction reference `T1`. -/
def firstPayment : PaymentBody :=
  ⟨some "amina@bubt.edu", some "T1", .num (.fin 500), none, none⟩

/-- A create-payment body with the same reference written ` T1` and an email of
three spaces. -/
def blankEmailPayment : PaymentBody :=
  ⟨some "   ", some " T1", .num (.fin 500), none, none⟩

/-- A valid create-payment body with the same reference written ` T1`. -/
def paddedPayment : PaymentBody :=
  ⟨some "karim@bubt.edu", some " T1", .num (.fin 500), none, none⟩

/-! ## Password reset (`controllers/authController.js`, `models/Admin.js`) -/

/-- The hook `adminSchema.pre("save")` of `models/Admin.js`, for a loaded
administrator whose fields were assigned: when the password was modified it
is replaced by its bcrypt hash with 10 rounds. -/
def preSave (env : Env) (loaded assigned : Admin) : Admin :=
  if assigned.password = loaded.password then assigned
  else { assigned with password := env.bcryptHash assigned.password 10 }

namespace AuthController

/-- The function `successfulResponse` of `authController.js`.  Its body calls
`toast.success`, and `toast` is neither defined nor imported in the module
and is not a global of Node.js, so the call throws a `ReferenceError`. -/
def successfulResponse : Except String Unit :=
  .error "ReferenceError: toast is not defined"

/-- The function `exports.forgotPassword` of `authController.js`; `sendMail`
tells whether `transporter.sendMail()` succeeds. -/
def forgotPassword (env : Env) (db : Store) (now : Nat) (randomBytes : List Nat)
    (sendMail : Bool) (body : ForgotBody) : ForgotOutcome :=
  match body.email with
  | none => ⟨db, ⟨400, .error "Email is required."⟩, none⟩
  | some email =>
    if email = "" then ⟨db, ⟨400, .error "Email is required."⟩, none⟩
    else
      match findAdminByEmail db email with
      | none => ⟨db, ⟨200, .message "If the email exists, a reset link was sent."⟩, none⟩
      | some admin =>
        let token := toHex randomBytes
        let tokenHash := env.sha256Hex token
        let db1 := saveAdmin db (preSave env admin
          { admin with resetTokenHash := some tokenHash,
                       resetTokenExpires := some (now + 60 * 60 * 1000) })
        let resetLink := env.FRONTEND_URL ++ "/reset-password?token=" ++ token ++ "&email="
          ++ env.encodeURIComponent email
        if sendMail = false then
          ⟨db1, ⟨500, .error "Server error while sending reset email."⟩, none⟩
        else
          ⟨db1, ⟨200, .message "If the email exists, a reset link was sent."⟩,
            some ⟨email, resetLink⟩⟩

/-- The query `Admin.findOne` of `exports.resetPassword`: the email, the stored
token hash, and `resetTokenExpires: { $gt: Date.now() }`. -/
def findAdminForReset (db : Store) (email tokenHash : String) (now : Nat) : Option Admin :=
  db.admins.find? fun a =>
    decide (a.email = email) && decide (a.resetTokenHash = some tokenHash) &&
      (match a.resetTokenExpires with
       | some expires => decide (now < expires)
       | none => false)

/-- The function `exports.resetPassword` of `authController.js`. -/
def resetPassword (env : Env) (db : Store) (now : Nat) (body : ResetBody) : Outcome :=
  match body.email, body.token, body.newPassword with
  | some email, some token, some newPassword =>
    if email = "" ∨ token = "" ∨ newPassword = "" then
      ⟨db, ⟨400, .error "Invalid request data."⟩⟩
    else
      match findAdminForReset db email (env.sha256Hex token) now with
      | none => ⟨db, ⟨400, .error "Invalid or expired token."⟩⟩
      | some admin =>
        let db1 := saveAdmin db (preSave env admin
          { admin with password := newPassword,
                       resetTokenHash := none,
                       resetTokenExpires := none })
        match successfulResponse with
        | .error _ => ⟨db1, ⟨500, .error "Server error during password reset."⟩⟩
        | .ok _ =>
          ⟨db1, ⟨200, .message
            "Password reset successful! Please login with your new password."⟩⟩
  | _, _, _ => ⟨db, ⟨400, .error "Invalid request data."⟩⟩

end AuthController

/-! ## Administrator-only routes (`server.js`) -/

/-- The order of `sort({ createdAt: -1 })`: `a` may precede `b`. -/
def newestFirst (a b : Student) : Prop := b.createdAt ≤ a.createdAt

instance : DecidableRel newestFirst :=
  fun a b => inferInstanceAs (Decidable (b.createdAt ≤ a.createdAt))

/-- The cursor method `sort({ createdAt: -1 })` on student documents. -/
def sortNewestFirst (l : List Student) : List Student := l.insertionSort newestFirst

namespace Server

/-- Handler of `GET /api/admin/dashboard`. -/
def dashboard (db : Store) : Response :=
  ⟨200, .dashboard
    (sortNewestFirst (db.students.filter fun s => decide (s.status = "pending")))
    (sortNewestFirst (db.students.filter fun s => decide (s.status = "pending"))).length⟩

/-- Handler of `GET /api/admin/application/:studentId`. -/
def fetchApplication (db : Store) (studentId : String) : Response :=
  match db.students.find? fun s => decide (s.studentId = studentId) with
  | some application => ⟨200, .pendingRecord application⟩
  | none =>
    match db.applications.find? fun a => decide (a.studentId = studentId) with
    | some application => ⟨200, .approvedRecord application⟩
    | none => ⟨404, .error "Application not found"⟩

/-- Handler of `GET /api/admin/students`. -/
def listStudents (db : Store) : Response :=
  ⟨200, .studentList (sortNewestFirst db.students)⟩

/-- A route registered as `app.get(path, authMiddleware, handler)`: the handler
runs, with `req.adminId` set, only when the middleware calls `next()`. -/
def guarded (env : Env) (now : Nat) (authorization : Option String) (db : Store)
    (handler : String → Outcome) : Outcome :=
  match authMiddleware env now authorization with
  | .error response => ⟨db, response⟩
  | .ok adminId => handler adminId

/-- The route `GET /api/admin/dashboard`. -/
def dashboardRoute (env : Env) (now : Nat) (authorization : Option String) (db : Store) :
    Outcome :=
  guarded env now authorization db fun _ => ⟨db, dashboard db⟩

/-- The route `GET /api/admin/application/:studentId`. -/
def fetchApplicationRoute (env : Env) (now : Nat) (authorization : Option String) (db : Store)
    (studentId : String) : Outcome :=
  guarded env now authorization db fun _ => ⟨db, fetchApplication db studentId⟩

/-- The route `POST /api/admin/application/:id/action`. -/
def applicationActionRoute (env : Env) (now : Nat) (authorization : Option String) (db : Store)
    (newId id : String) (body : ActionBody) : Outcome :=
  guarded env now authorization db fun _ => applicationAction db now newId id body

/-- The route `GET /api/admin/students`. -/
def listStudentsRoute (env : Env) (now : Nat) (authorization : Option String) (db : Store) :
    Outcome :=
  guarded env now authorization db fun _ => ⟨db, listStudents db⟩

end Server

/-- The administrator `demoAdmin` holding a reset token for the plaintext `tok`
that expires at time 1000. -/
def demoTokenAdmin : Admin :=
  { demoAdmin with resetTokenHash := some "sha256:tok", resetTokenExpires := some 1000 }

/-- A store holding `demoTokenAdmin` only. -/
def demoTokenStore : Store := ⟨[demoTokenAdmin], [], [], []⟩

/-- The reset request for `demoTokenAdmin` with the right token. -/
def demoReset : ResetBody := ⟨some "admin@bubt.edu", some "tok", some "secret1"⟩

/-- A valid submission: none of the five required fields is absent, empty, or
empty after trimming. -/
def validSubmission (body : SubmitBody) : Prop :=
  ∀ f ∈ requiredFields, ¬ emptyAfterTrim (body.field f)

/-- Two pending applications and a rejected one, out of order of creation. -/
def demoMixed : Store :=
  ⟨[], [{ demoStudent with _id := "s1", createdAt := 1 },
        { demoStudent with _id := "s2", createdAt := 3, status := "rejected" },
        { demoStudent with _id := "s3", createdAt := 2 }], [], []⟩

/-- The application `demoStudent` after it was rejected. -/
def demoRejected : Student :=
  { demoStudent with status := "rejected", rejectionReason := some "bad photo" }

/-- A store holding `demoRejected` only. -/
def demoRejectedStore : Store := ⟨[], [demoRejected], [], []⟩

/-! ## Payment history (`server.js`, `routes/paymentRoutes.js`) -/

/-- The body of `POST /api/payments/history`. -/
structure HistoryBody where
  email : Option String
  deriving DecidableEq, Repr

/-- The order of `sort({ createdAt: -1 })` on payments: `a` may precede `b`. -/
def newestPaymentFirst (a b : Payment) : Prop := b.createdAt ≤ a.createdAt

instance : DecidableRel newestPaymentFirst :=
  fun a b => inferInstanceAs (Decidable (b.createdAt ≤ a.createdAt))

/-- The cursor method `sort({ createdAt: -1 })` on payment documents. -/
def sortPaymentsNewestFirst (l : List Payment) : List Payment :=
  l.insertionSort newestPaymentFirst

namespace Server

/-- Handler of `POST /api/payments/history`; `routes/paymentRoutes.js` holds the
same handler. -/
def paymentHistory (db : Store) (body : HistoryBody) : Response :=
  let email := body.email.getD ""
  if email = "" then ⟨400, .failure "Email is required"⟩
  else
    ⟨200, .payments
      ((sortPaymentsNewestFirst
        (db.payments.filter fun p => decide (p.email = jsTrim email))).take 50)⟩

end Server

/-- A payment of `amina@bubt.edu` created at the given time. -/
def demoPaymentAt (createdAt : Nat) : Payment :=
  ⟨"p", "amina@bubt.edu", "T", 500, "topup", "pending", ⟨none, none, none⟩, createdAt⟩

/-- Three payments, two of them of `amina@bubt.edu`. -/
def demoPayments : Store :=
  ⟨[], [], [], [demoPaymentAt 1, { demoPaymentAt 2 with email := "karim@bubt.edu" },
    demoPaymentAt 3]⟩

/-- A create-payment body with the amount `0.5`, a JSON number. -/
def halfPayment : PaymentBody :=
  ⟨some "amina@bubt.edu", some "T1", .num (.fin (1 / 2)), none, none⟩

/-- A create-payment body with the amount `"0.9"`, a string. -/
def stringPayment : PaymentBody :=
  ⟨some "amina@bubt.edu", some "T1", .str "0.9", none, none⟩

/-- A reset request for `demoTokenAdmin` whose new password is the string
stored in its `password` field. -/
def storedHashReset : ResetBody :=
  ⟨some "admin@bubt.edu", some "tok", some "bcrypt:hunter2"⟩

/-! # Properties -/

/-! ## Lemmas on the administrator collection -/

theorem find_email_after_replace (l : List Admin) (e : String) (a b : Admin)
    (h : l.find? (fun x => decide (x.email = e)) = some a) (he : b.email = e)
    (hid : b._id = a._id) :
    (l.map fun x => if x._id = b._id then b else x).find? (fun x => decide (x.email = e))
      = some b := by
  induction l with
  | nil => simp at h
  | cons x xs ih =>
    by_cases hx : x.email = e
    · have hxa : x = a := by simpa [List.find?, hx] using h
      subst hxa
      simp [List.find?, hid, he]
    · have hrest : xs.find? (fun x => decide (x.email = e)) = some a := by
        simpa [List.find?, hx] using h
      by_cases hxi : x._id = b._id
      · simp [List.find?, hxi, he]
      · simp [List.find?, hxi, hx, ih hrest]

theorem findAdminByEmail_saveAdmin (db : Store) (e : String) (a b : Admin)
    (h : findAdminByEmail db e = some a) (he : b.email = e) (hid : b._id = a._id) :
    findAdminByEmail (saveAdmin db b) e = some b := by
  unfold findAdminByEmail saveAdmin at *
  exact find_email_after_replace db.admins e a b h he hid

theorem findAdminByEmail_email (db : Store) (e : String) (a : Admin)
    (h : findAdminByEmail db e = some a) : a.email = e := by
  unfold findAdminByEmail at h
  simpa using List.find?_some h

theorem saveAdmin_saveAdmin (db : Store) (a b : Admin) (hid : a._id = b._id) :
    saveAdmin (saveAdmin db a) b = saveAdmin db b := by
  unfold saveAdmin
  simp only [List.map_map]
  congr 1
  apply List.map_congr_left
  intro x _
  by_cases hx : x._id = a._id
  · simp [hx, hid]
  · have hx2 : ¬ x._id = b._id := fun h => hx (h.trans hid.symm)
    simp [hx, hx2]

theorem hexChars_ne_nil (bytes : List Nat) (h : bytes ≠ []) : hexChars bytes ≠ [] := by
  cases bytes with
  | nil => exact absurd rfl h
  | cons b bs => simp [hexChars]

theorem toHex_ne_empty (bytes : List Nat) (h : bytes.length = 32) : toHex bytes ≠ "" := by
  have hne : bytes ≠ [] := by
    intro hnil
    rw [hnil] at h
    simp at h
  intro hempty
  have := congrArg String.data hempty
  exact hexChars_ne_nil bytes hne (by simpa [toHex] using this)

theorem jsLength_empty : jsLength "" = 0 := rfl


/-! ## C1 -/

/-- C1. Reset tokens are single-use.  For an administrator `a` found by the
non-empty email `e`, let forgot-password issue the token `toHex randomBytes` at
time `now`.  A reset-password request with `e`, that token and a new password
of length at least 6, made at a time `now2` not after the expiry, answers 200
and performs one update of `a` that sets the new password hash and clears
`resetTokenHash` and `resetTokenExpires`.  Any later reset-password request
with the same email and token (whatever its password and time) answers 400 and
leaves the store, hence the stored password, unchanged. -/
theorem reset_token_single_use (env : Env) (db : Store) (a : Admin) (e newPassword : String)
    (now now2 now3 : Nat) (randomBytes : List Nat) (smtpVerify sendMail : Bool)
    (password3 : Option String)
    (hfind : findAdminByEmail db e = some a) (he : e ≠ "")
    (hrnd : randomBytes.length = 32)
    (hsha : env.sha256Hex (toHex randomBytes) ≠ "")
    (hlen : 6 ≤ jsLength newPassword)
    (hnow : now2 ≤ now + 60 * 60 * 1000) :
    let issued := Server.forgotPassword env db now randomBytes smtpVerify sendMail ⟨some e⟩
    let first := Server.resetPassword env issued.db now2
      ⟨some e, some (toHex randomBytes), some newPassword⟩
    let second := Server.resetPassword env first.db now3
      ⟨some e, some (toHex randomBytes), password3⟩
    let updated : Admin :=
      { a with password := env.bcryptHash newPassword 12,
               resetTokenHash := none, resetTokenExpires := none }
    findAdminByEmail issued.db e =
      some { a with resetTokenHash := some (env.sha256Hex (toHex randomBytes)),
                    resetTokenExpires := some (now + 60 * 60 * 1000) } ∧
    first.response.status = 200 ∧
    first.db = saveAdmin issued.db updated ∧
    findAdminByEmail first.db e = some updated ∧
    second.response.status = 400 ∧
    second.db = first.db ∧
    findAdminByEmail second.db e = some updated := by
  intro issued first second updated
  have hae : a.email = e := findAdminByEmail_email db e a hfind
  have htok : toHex randomBytes ≠ "" := toHex_ne_empty randomBytes hrnd
  have hpw : newPassword ≠ "" := by
    intro h
    rw [h, jsLength_empty] at hlen
    omega
  have hissued : issued.db = saveAdmin db
      { a with resetTokenHash := some (env.sha256Hex (toHex randomBytes)),
               resetTokenExpires := some (now + 60 * 60 * 1000) } := by
    simp only [issued, Server.forgotPassword, he, hfind, if_false]
    cases smtpVerify <;> cases sendMail <;> simp
  have hfind1 : findAdminByEmail issued.db e =
      some { a with resetTokenHash := some (env.sha256Hex (toHex randomBytes)),
                    resetTokenExpires := some (now + 60 * 60 * 1000) } := by
    rw [hissued]
    exact findAdminByEmail_saveAdmin db e a _ hfind hae rfl
  have hfirst : first = ⟨saveAdmin issued.db updated, ⟨200, .success
      "Password reset successfully. You can now login with your new password."⟩⟩ := by
    simp only [first, Server.resetPassword, hfind1]
    simp [he, htok, hpw, hsha, Nat.not_lt.mpr hlen, Nat.not_lt.mpr hnow, updated]
  have hfind2 : findAdminByEmail first.db e = some updated := by
    rw [hfirst]
    exact findAdminByEmail_saveAdmin issued.db e _ updated hfind1 hae rfl
  have hsecond : second = ⟨first.db, second.response⟩ ∧ second.response.status = 400 := by
    simp only [second, Server.resetPassword, hfind2]
    cases password3 with
    | none => simp
    | some p =>
      by_cases h1 : e = "" ∨ toHex randomBytes = "" ∨ p = ""
      · simp [h1]
      · by_cases h2 : jsLength p < 6
        · simp [h1, h2]
        · simp [h1, h2, hfind2, updated]
  refine ⟨hfind1, ?_, ?_, hfind2, hsecond.2, ?_, ?_⟩
  · rw [hfirst]
  · rw [hfirst]
  · rw [hsecond.1]
  · rw [hsecond.1]; exact hfind2

/-- C1 instantiated: `demoAdmin` resets the password to `secret1` half an hour
after the token was issued, and a replay of the request is refused. -/
theorem reset_token_single_use_witness :
    (Server.resetPassword demoEnv
      (Server.forgotPassword demoEnv demoStore 1000 (List.replicate 32 7) true true
        ⟨some "admin@bubt.edu"⟩).db 1801000
      ⟨some "admin@bubt.edu", some (toHex (List.replicate 32 7)), some "secret1"⟩).response.status
      = 200 ∧
    (Server.resetPassword demoEnv
      (Server.resetPassword demoEnv
        (Server.forgotPassword demoEnv demoStore 1000 (List.replicate 32 7) true true
          ⟨some "admin@bubt.edu"⟩).db 1801000
        ⟨some "admin@bubt.edu", some (toHex (List.replicate 32 7)), some "secret1"⟩).db 1802000
      ⟨some "admin@bubt.edu", some (toHex (List.replicate 32 7)), some "secret2"⟩).response.status
      = 400 :=
  have h := reset_token_single_use demoEnv demoStore demoAdmin "admin@bubt.edu" "secret1"
    1000 1801000 1802000 (List.replicate 32 7) true true (some "secret2")
    (by decide) (by decide) (by decide) (by decide) (by decide) (by decide)
  ⟨h.2.1, h.2.2.2.2.1⟩

/-! ## Lemmas on login and the bearer header -/

theorem find_username_none (l : List Admin) (u : String)
    (h : ∀ a ∈ l, a.username ≠ u) :
    l.find? (fun a => decide (a.username = u)) = none := by
  simpa using h

theorem find_username_of_unique (l : List Admin) (a : Admin) (hmem : a ∈ l)
    (huniq : l.Pairwise fun x y => x.username ≠ y.username) :
    l.find? (fun x => decide (x.username = a.username)) = some a := by
  induction l with
  | nil => simp at hmem
  | cons x xs ih =>
    rw [List.pairwise_cons] at huniq
    rcases List.mem_cons.mp hmem with hax | hin
    · subst hax
      simp [List.find?]
    · have hne : x.username ≠ a.username := huniq.1 a hin
      simp [List.find?, hne, ih hin huniq.2]

theorem splitChars_no_sep (sep : Char) (cs : List Char) (h : sep ∉ cs) :
    splitChars sep cs = [cs] := by
  induction cs with
  | nil => rfl
  | cons c cs ih =>
    have hc : c ≠ sep := fun hc => h (by simp [hc])
    have hcs : sep ∉ cs := fun hcs => h (List.mem_cons_of_mem _ hcs)
    simp [splitChars, ih hcs, hc]

theorem jsSplit_bearer (token : String) (h : ' ' ∉ token.data) :
    jsSplit ' ' ("Bearer " ++ token) = ["Bearer", token] := by
  have hb : "Bearer ".data = ['B', 'e', 'a', 'r', 'e', 'r', ' '] := rfl
  have hs : "Bearer" = String.mk ['B', 'e', 'a', 'r', 'e', 'r'] := rfl
  simp [jsSplit, String.data_append, hb, hs, splitChars, splitChars_no_sep ' ' token.data h]

/-! ## C2 -/

/-- C2. Login answers an unknown username and a wrong password identically.
If no administrator of `db1` has the username `u1`, and `db2` holds the
administrator `a` under the username `u2` but `bcrypt.compare` rejects `p2`
against the stored hash, then for non-empty usernames and passwords the two
login responses are the same response, status 401 with the body
`{ error: "Invalid credentials" }`; likewise for the login of
`authController.js`, whose body is `{ error: "Invalid credentials." }`. -/
theorem login_unknown_user_same_as_wrong_password (env : Env) (db1 db2 : Store)
    (now1 now2 : Nat) (u1 p1 u2 p2 : String) (a : Admin)
    (hu1 : u1 ≠ "") (hp1 : p1 ≠ "") (hu2 : u2 ≠ "") (hp2 : p2 ≠ "")
    (hnone : ∀ x ∈ db1.admins, x.username ≠ u1)
    (hsome : findAdminByUsername db2 u2 = some a)
    (hwrong : env.bcryptCompare p2 a.password = false) :
    Server.login env db1 now1 ⟨some u1, some p1⟩ = Server.login env db2 now2 ⟨some u2, some p2⟩ ∧
    Server.login env db1 now1 ⟨some u1, some p1⟩ = ⟨401, .error "Invalid credentials"⟩ ∧
    AuthController.login env db1 now1 ⟨some u1, some p1⟩ =
      AuthController.login env db2 now2 ⟨some u2, some p2⟩ ∧
    AuthController.login env db1 now1 ⟨some u1, some p1⟩ = ⟨401, .error "Invalid credentials."⟩ := by
  have h1 : findAdminByUsername db1 u1 = none := find_username_none db1.admins u1 hnone
  simp [Server.login, AuthController.login, hu1, hp1, hu2, hp2, h1, hsome, hwrong]

/-- C2 instantiated: the username `nobody` against the empty store, and
`admin` with a wrong password against `demoStore`. -/
theorem login_unknown_user_same_as_wrong_password_witness :
    Server.login demoEnv ⟨[], [], [], []⟩ 0 ⟨some "nobody", some "x"⟩ =
      Server.login demoEnv demoStore 5 ⟨some "admin", some "wrong"⟩ :=
  (login_unknown_user_same_as_wrong_password demoEnv ⟨[], [], [], []⟩ demoStore 0 5
    "nobody" "x" "admin" "wrong" demoAdmin (by decide) (by decide) (by decide) (by decide)
    (by decide) (by decide) (by decide)).1

/-! ## C3 -/

/-- C3. Login then authorize is a round trip.  Let `a` be a stored administrator
(usernames are unique in the store, as the unique index requires) with a
non-empty username, and let `password` be a non-empty password that
`bcrypt.compare` accepts against the stored hash.  Login at time `tLogin`
answers 200 with the token `jwt.sign` returns.  If `jwt.verify` inverts
`jwt.sign` on that token at time `tAuth` (the token has not expired) and the
token is a non-empty string without spaces, then `authMiddleware`, given the
header `Bearer <token>`, calls the next handler with `adminId = a._id`. -/
theorem login_then_authorize (env : Env) (db : Store) (a : Admin) (password : String)
    (tLogin tAuth : Nat)
    (hmem : a ∈ db.admins)
    (huniq : db.admins.Pairwise fun x y => x.username ≠ y.username)
    (hu : a.username ≠ "") (hp : password ≠ "")
    (hcmp : env.bcryptCompare password a.password = true)
    (hjwt : env.jwtVerify
        (env.jwtSign ⟨a._id, some a.username⟩ env.JWT_SECRET (jsOr env.JWT_EXPIRE "1h") tLogin)
        env.JWT_SECRET tAuth = some ⟨a._id, some a.username⟩)
    (hne : env.jwtSign ⟨a._id, some a.username⟩ env.JWT_SECRET (jsOr env.JWT_EXPIRE "1h") tLogin
        ≠ "")
    (hsp : ' ' ∉ (env.jwtSign ⟨a._id, some a.username⟩ env.JWT_SECRET
        (jsOr env.JWT_EXPIRE "1h") tLogin).data) :
    ∃ token : String,
      Server.login env db tLogin ⟨some a.username, some password⟩ =
        ⟨200, .session true token ⟨a._id, a.username, a.email⟩⟩ ∧
      Server.authMiddleware env tAuth (some ("Bearer " ++ token)) = .ok a._id := by
  refine ⟨env.jwtSign ⟨a._id, some a.username⟩ env.JWT_SECRET (jsOr env.JWT_EXPIRE "1h") tLogin,
    ?_, ?_⟩
  · have hfind : findAdminByUsername db a.username = some a :=
      find_username_of_unique db.admins a hmem huniq
    simp [Server.login, hu, hp, hfind, hcmp]
  · simp [Server.authMiddleware, jsSplit_bearer _ hsp, hne, hjwt]

/-- C3 instantiated: `demoAdmin` logs in with `hunter2` and is authorized. -/
theorem login_then_authorize_witness :
    ∃ token : String,
      Server.login demoEnv demoStore 10 ⟨some "admin", some "hunter2"⟩ =
        ⟨200, .session true token ⟨"a1", "admin", "admin@bubt.edu"⟩⟩ ∧
      Server.authMiddleware demoEnv 20 (some ("Bearer " ++ token)) = .ok "a1" :=
  login_then_authorize demoEnv demoStore demoAdmin "hunter2" 10 20
    (by decide) (by decide) (by decide) (by decide) (by decide) (by decide) (by decide)
    (by decide)

/-! ## Lemmas on the pending collection -/

theorem id_injective_of_unique (l : List Student)
    (huniq : l.Pairwise fun x y => x._id ≠ y._id) (s r : Student)
    (hs : s ∈ l) (hr : r ∈ l) (hid : s._id = r._id) : s = r := by
  by_contra hne
  have hsymm : Symmetric fun x y : Student => x._id ≠ y._id := fun _ _ h => Ne.symm h
  exact huniq.forall hsymm hs hr hne hid

theorem findStudentById_of_unique (db : Store) (r : Student) (hmem : r ∈ db.students)
    (huniq : db.students.Pairwise fun x y => x._id ≠ y._id) :
    findStudentById db r._id = some r := by
  unfold findStudentById
  generalize db.students = l at hmem huniq
  induction l with
  | nil => simp at hmem
  | cons x xs ih =>
    rw [List.pairwise_cons] at huniq
    rcases List.mem_cons.mp hmem with hax | hin
    · subst hax
      simp [List.find?]
    · have hne : x._id ≠ r._id := huniq.1 r hin
      simp [List.find?, hne, ih hin huniq.2]

theorem eraseP_id_of_unique (l : List Student) (r : Student) (hmem : r ∈ l)
    (huniq : l.Pairwise fun x y => x._id ≠ y._id) :
    l.eraseP (fun s => decide (s._id = r._id)) = l.filter fun s => decide (s ≠ r) := by
  induction l with
  | nil => simp at hmem
  | cons x xs ih =>
    rw [List.pairwise_cons] at huniq
    rcases List.mem_cons.mp hmem with hax | hin
    · subst hax
      have hrest : xs.filter (fun s => decide (s ≠ r)) = xs := by
        rw [List.filter_eq_self]
        intro s hs
        have : r._id ≠ s._id := huniq.1 s hs
        have hsr : s ≠ r := fun h => this (by rw [h])
        simpa using hsr
      simpa [List.eraseP_cons] using hrest.symm
    · have hne : x._id ≠ r._id := huniq.1 r hin
      have hxr : x ≠ r := fun h => hne (by rw [h])
      simp [List.eraseP_cons, hne, hxr, ih hin huniq.2]

/-! ## C4 -/

/-- C4. Approval moves the record.  If the pending collection (whose `_id`s are
unique) contains `r`, then the action `approve` on `r._id` answers 200, removes
`r` from the pending collection and keeps every other pending record, and
appends exactly one record to the approved collection; that record carries the
thirteen copied fields of `r`, `paymentStatus = "Approved"` and
`approvedAt = now`.  The other collections are unchanged. -/
theorem approve_moves_record (db : Store) (now : Nat) (newId : String) (r : Student)
    (reason : Option String)
    (hmem : r ∈ db.students)
    (huniq : db.students.Pairwise fun x y => x._id ≠ y._id) :
    let out := Server.applicationAction db now newId r._id ⟨.str "approve", reason⟩
    out.response = ⟨200, .success "Application approved successfully"⟩ ∧
    r ∉ out.db.students ∧
    out.db.students = db.students.filter (fun s => decide (s ≠ r)) ∧
    (∃ app : Application,
      out.db.applications = db.applications ++ [app] ∧
      app.studentId = r.studentId ∧ app.cardType = r.cardType ∧
      app.firstName = r.firstName ∧ app.lastName = r.lastName ∧ app.email = r.email ∧
      app.program = r.program ∧ app.trxId = r.trxId ∧ app.amount = r.amount ∧
      app.requestType = r.requestType ∧ app.photo = r.photo ∧ app.gdCopy = r.gdCopy ∧
      app.oldIdImage = r.oldIdImage ∧ app.documents = r.documents ∧
      app.paymentStatus = "Approved" ∧ app.approvedAt = now) ∧
    out.db.admins = db.admins ∧ out.db.payments = db.payments := by
  intro out
  have hfind := findStudentById_of_unique db r hmem huniq
  have hout : out = ⟨{ db with
        applications := db.applications ++ [approvedCopy r now newId]
        students := db.students.filter fun s => decide (s ≠ r) },
      ⟨200, .success "Application approved successfully"⟩⟩ := by
    simp only [out, Server.applicationAction, hfind]
    simp [toBoolean, eraseP_id_of_unique db.students r hmem huniq]
  rw [hout]
  refine ⟨rfl, ?_, rfl, ⟨approvedCopy r now newId, rfl, rfl, rfl, rfl, rfl, rfl, rfl, rfl, rfl,
    rfl, rfl, rfl, rfl, rfl, rfl, rfl⟩, rfl, rfl⟩
  simp

/-- C4 instantiated: approving `demoStudent` empties the pending collection. -/
theorem approve_moves_record_witness :
    (Server.applicationAction demoPending 9 "app1" "s1" ⟨.str "approve", none⟩).db.students
      = [] :=
  (approve_moves_record demoPending 9 "app1" demoStudent none (by decide) (by decide)).2.2.1

/-! ## C5 -/

/-- C5, as stated, fails: rejecting `demoStudent` (stored with `updatedAt = 1`)
at time 2 with the reason `bad photo` does not leave the record with only
`status` and `rejectionReason` changed; the schema option `timestamps: true`
also sets `updatedAt` to 2. -/
theorem reject_changes_updatedAt :
    (Server.applicationAction demoPending 2 "app1" "s1"
        ⟨.str "reject", some "bad photo"⟩).db.students
      ≠ [{ demoStudent with status := "rejected", rejectionReason := some "bad photo" }] ∧
    (Server.applicationAction demoPending 2 "app1" "s1"
        ⟨.str "reject", some "bad photo"⟩).db.students
      = [{ demoStudent with status := "rejected", rejectionReason := some "bad photo",
                            updatedAt := 2 }] := by
  decide

/-- C5, amended.  If the pending collection (whose `_id`s are unique) contains
`r`, then the action `reject` on `r._id` answers 200 and replaces `r`, in
place, by `r` with `status = "rejected"`, with `rejectionReason` set to the
reason when a non-empty reason is supplied and left as it was otherwise, and
with `updatedAt = now` when this changed `status` or `rejectionReason`; no
other field of `r` changes, every other pending record is unchanged, and the
approved collection and the other collections are unchanged. -/
theorem reject_in_place (db : Store) (now : Nat) (newId : String) (r : Student)
    (reason : Option String)
    (hmem : r ∈ db.students)
    (huniq : db.students.Pairwise fun x y => x._id ≠ y._id) :
    let out := Server.applicationAction db now newId r._id ⟨.str "reject", reason⟩
    let rejected : Student :=
      { r with status := "rejected"
               rejectionReason := if truthy reason then reason else r.rejectionReason }
    out.response = ⟨200, .success "Application rejected successfully"⟩ ∧
    out.db.students = db.students.map (fun s =>
      if s = r then (if rejected = r then r else { rejected with updatedAt := now }) else s) ∧
    out.db.applications = db.applications ∧
    out.db.admins = db.admins ∧ out.db.payments = db.payments := by
  intro out rejected
  have hfind := findStudentById_of_unique db r hmem huniq
  have hout : out = ⟨saveStudent db r rejected now,
      ⟨200, .success "Application rejected successfully"⟩⟩ := by
    simp only [out, Server.applicationAction, hfind]
    simp [toBoolean, rejected]
  rw [hout]
  refine ⟨rfl, ?_, rfl, rfl, rfl⟩
  simp only [saveStudent]
  apply List.map_congr_left
  intro s hs
  by_cases hsr : s = r
  · simp [hsr]
  · have hid : s._id ≠ r._id := fun h => hsr (id_injective_of_unique db.students huniq s r hs hmem h)
    simp [hsr, hid]

/-- C5, amended, instantiated on `demoStudent`. -/
theorem reject_in_place_witness :
    (Server.applicationAction demoPending 2 "app1" "s1"
        ⟨.str "reject", some "bad photo"⟩).db.applications = [] :=
  (reject_in_place demoPending 2 "app1" demoStudent (some "bad photo")
    (by decide) (by decide)).2.2.1

/-! ## C6 -/

/-- C6. An action other than `approve` and `reject` (an absent action included)
is refused with status 400 and the store is returned as it was, whatever the
store and the id are: the response does not depend on them, the action being
checked before the record is looked up. -/
theorem invalid_action_rejected (db : Store) (now : Nat) (newId id : String)
    (action : JsVal) (reason : Option String)
    (h1 : action ≠ .str "approve") (h2 : action ≠ .str "reject") :
    Server.applicationAction db now newId id ⟨action, reason⟩ =
      ⟨db, ⟨400, .error "Valid action (approve/reject) is required"⟩⟩ := by
  simp [Server.applicationAction, h1, h2]

/-- C6 instantiated: an absent action on a record that exists. -/
theorem invalid_action_rejected_witness :
    Server.applicationAction demoPending 2 "app1" "s1" ⟨.undefined, none⟩ =
      ⟨demoPending, ⟨400, .error "Valid action (approve/reject) is required"⟩⟩ :=
  invalid_action_rejected demoPending 2 "app1" "s1" .undefined none (by decide) (by decide)

/-! ## Lemmas on joined messages -/

theorem infix_jsJoin (sep : String) (l : List String) (x : String) (h : x ∈ l) :
    x.data <:+: (jsJoin sep l).data := by
  induction l with
  | nil => simp at h
  | cons y ys ih =>
    cases ys with
    | nil =>
      have hxy : x = y := by simpa using h
      subst hxy
      simp [jsJoin]
    | cons z zs =>
      rcases List.mem_cons.mp h with hxy | hin
      · subst hxy
        simp only [jsJoin, String.data_append, List.append_assoc]
        exact (List.prefix_append _ _).isInfix
      · simp only [jsJoin, String.data_append]
        exact (ih hin).trans (List.suffix_append _ _).isInfix

theorem infix_requiredMessage (path : String) : path.data <:+: (requiredMessage path).data := by
  simp only [requiredMessage, String.data_append]
  exact List.infix_append _ _ _

theorem jsOr_ne_empty (x : Option String) (d : String) (hd : d ≠ "") : jsOr x d ≠ "" := by
  unfold jsOr
  cases x with
  | none => exact hd
  | some s =>
    by_cases hs : s = ""
    · simp [hs, hd]
    · simp [hs]

theorem saveNewStudent_of_errors (db : Store) (doc : Student) (h : validateStudent doc ≠ []) :
    saveNewStudent db doc = .error (.validation (validateStudent doc)) := by
  unfold saveNewStudent
  cases hv : validateStudent doc with
  | nil => exact absurd hv h
  | cons e es => rfl

theorem truthy_of_missingFields_nil (body : SubmitBody) (h : missingFields body = [])
    (f : String) (hf : f ∈ requiredFields) : truthy (body.field f) = true := by
  unfold missingFields at h
  rw [List.filter_eq_nil_iff] at h
  simpa using h f hf

theorem mem_missingFields (body : SubmitBody) (f : String) (hf : f ∈ requiredFields)
    (h : truthy (body.field f) = false) : f ∈ missingFields body := by
  unfold missingFields
  rw [List.mem_filter]
  exact ⟨hf, by simp [h]⟩

theorem blank_field_in_errors (now : Nat) (newId : String) (body : SubmitBody) (files : Files)
    (f : String) (hf : f ∈ requiredFields) (hblank : emptyAfterTrim (body.field f)) 
    (htruthy : truthy (body.field f) = true) :
    (f, requiredMessage f) ∈ validateStudent (Server.studentData now newId body files) := by
  obtain ⟨sid, ct, fn, ln, em, pr, tx, am, rt, st⟩ := body
  simp only [requiredFields, List.mem_cons, List.mem_singleton, List.not_mem_nil, or_false] at hf
  rcases hf with h | h | h | h | h <;> subst h
  · cases sid with
    | none => simp [SubmitBody.field, truthy] at htruthy
    | some s =>
      have hs : jsTrim s = "" := by simpa [SubmitBody.field, emptyAfterTrim] using hblank
      simp [validateStudent, Server.studentData, checkRequired, hs]
  · cases fn with
    | none => simp [SubmitBody.field, truthy] at htruthy
    | some s =>
      have hs : jsTrim s = "" := by simpa [SubmitBody.field, emptyAfterTrim] using hblank
      simp [validateStudent, Server.studentData, checkRequired, hs]
  · cases ln with
    | none => simp [SubmitBody.field, truthy] at htruthy
    | some s =>
      have hs : jsTrim s = "" := by simpa [SubmitBody.field, emptyAfterTrim] using hblank
      simp [validateStudent, Server.studentData, checkRequired, hs]
  · cases em with
    | none => simp [SubmitBody.field, truthy] at htruthy
    | some s =>
      have hs : jsTrim s = "" := by simpa [SubmitBody.field, emptyAfterTrim] using hblank
      simp [validateStudent, Server.studentData, checkRequired, hs]
  · cases tx with
    | none => simp [SubmitBody.field, truthy] at htruthy
    | some s =>
      have hs : jsTrim s = "" := by simpa [SubmitBody.field, emptyAfterTrim] using hblank
      simp [validateStudent, Server.studentData, checkRequired, hs]

theorem emptyAfterTrim_of_falsy (v : Option String) (h : truthy v = false) :
    emptyAfterTrim v := by
  cases v with
  | none => trivial
  | some s =>
    have hs : s = "" := by simpa [truthy] using h
    subst hs
    show jsTrim "" = ""
    rfl

/-! ## C7 -/

/-- C7, as stated, fails on a submission that mixes the two kinds of missing
field: with `studentId` absent and `firstName` three spaces, the handler
answers 400 from its own check, and the message names `studentId` only, not
`firstName`, although `firstName` is empty after trimming. -/
theorem submit_message_omits_blank_field :
    emptyAfterTrim ((demoSubmit none (some "   ")).field "firstName") ∧
    Server.submit demoPending 5 "s2" (demoSubmit none (some "   ")) noFiles =
      ⟨demoPending, ⟨400, .failure "Missing required fields: studentId"⟩⟩ ∧
    ¬ "firstName".data <:+: "Missing required fields: studentId".data := by
  decide

/-- C7, amended.  If any of `studentId`, `firstName`, `lastName`, `email`,
`trxId` is absent, empty, or empty after trimming, the submit handler answers
400 with a `{ success: false, error }` body and returns the store as it was.
The message names every required field that is absent or empty; and when no
required field is absent or empty (so that the rejection comes from the schema
validation), it names every required field that is empty after trimming. -/
theorem submit_rejects_missing_fields (db : Store) (now : Nat) (newId : String)
    (body : SubmitBody) (files : Files)
    (h : ∃ f ∈ requiredFields, emptyAfterTrim (body.field f)) :
    (Server.submit db now newId body files).db = db ∧
    (Server.submit db now newId body files).response.status = 400 ∧
    ∃ msg : String,
      (Server.submit db now newId body files).response.body = .failure msg ∧
      (∀ f ∈ requiredFields, truthy (body.field f) = false → f.data <:+: msg.data) ∧
      ((∀ f ∈ requiredFields, truthy (body.field f) = true) →
        ∀ f ∈ requiredFields, emptyAfterTrim (body.field f) → f.data <:+: msg.data) := by
  by_cases hm : missingFields body = []
  · have htr := truthy_of_missingFields_nil body hm
    obtain ⟨f0, hf0, hb0⟩ := h
    have herr : validateStudent (Server.studentData now newId body files) ≠ [] :=
      List.ne_nil_of_mem (blank_field_in_errors now newId body files f0 hf0 hb0 (htr f0 hf0))
    have hout : Server.submit db now newId body files =
        ⟨db, ⟨400, .failure ("Validation error: " ++ jsJoin ", "
          ((validateStudent (Server.studentData now newId body files)).map fun e => e.2))⟩⟩ := by
      simp [Server.submit, hm, saveNewStudent_of_errors db _ herr]
    rw [hout]
    refine ⟨rfl, rfl, _, rfl, ?_, ?_⟩
    · intro f hf hfalse
      rw [htr f hf] at hfalse
      exact absurd hfalse (by simp)
    · intro _ f hf hb
      have hmem := blank_field_in_errors now newId body files f hf hb (htr f hf)
      have hmsg : requiredMessage f ∈
          (validateStudent (Server.studentData now newId body files)).map fun e => e.2 :=
        List.mem_map.mpr ⟨_, hmem, rfl⟩
      rw [String.data_append]
      exact ((infix_requiredMessage f).trans (infix_jsJoin ", " _ _ hmsg)).trans
        (List.suffix_append _ _).isInfix
  · have hout : Server.submit db now newId body files =
        ⟨db, ⟨400, .failure ("Missing required fields: " ++ jsJoin ", " (missingFields body))⟩⟩ := by
      simp [Server.submit, hm]
    rw [hout]
    refine ⟨rfl, rfl, _, rfl, ?_, ?_⟩
    · intro f hf hfalse
      rw [String.data_append]
      exact (infix_jsJoin ", " _ _ (mem_missingFields body f hf hfalse)).trans
        (List.suffix_append _ _).isInfix
    · intro hall
      exfalso
      apply hm
      unfold missingFields
      rw [List.filter_eq_nil_iff]
      intro f hf
      simp [hall f hf]

/-- C7, amended, instantiated: a `studentId` of three spaces is refused by the
schema validation, and nothing is stored. -/
theorem submit_rejects_missing_fields_witness :
    (Server.submit demoPending 5 "s2" (demoSubmit (some "   ") (some "Amina")) noFiles).db
        = demoPending ∧
    (Server.submit demoPending 5 "s2" (demoSubmit (some "   ") (some "Amina")) noFiles
      ).response.status = 400 :=
  have h := submit_rejects_missing_fields demoPending 5 "s2"
    (demoSubmit (some "   ") (some "Amina")) noFiles ⟨"studentId", by decide, by decide⟩
  ⟨h.1, h.2.1⟩

/-! ## C8 -/

/-- C8 fails on the code: `demoPending` already holds an application with
`studentId = "S1"` and `trxId = "T1"`; a second valid submission with the same
student id and transaction reference is answered 201, not with a conflict, and
a second record with the same keys is stored. -/
theorem submit_accepts_duplicate_keys :
    (Server.submit demoPending 5 "s2" (demoSubmit (some "S1") (some "Amina")) noFiles
      ).response.status = 201 ∧
    ((Server.submit demoPending 5 "s2" (demoSubmit (some "S1") (some "Amina")) noFiles
      ).db.students.map fun s => (s.studentId, s.trxId)) = [("S1", "T1"), ("S1", "T1")] := by
  decide

/-! ## Lemmas on payments -/

theorem find_trx_none_iff (l : List Payment) (t : String) :
    l.find? (fun p => decide (p.trxId = t)) = none ↔ ∀ p ∈ l, p.trxId ≠ t := by
  simp

theorem any_trx_iff (l : List Payment) (t : String) :
    l.any (fun p => decide (p.trxId = t)) = true ↔ ∃ p ∈ l, p.trxId = t := by
  simp

/-- Every create-payment request either leaves the store as it was and is not
answered 201, or is answered 201 and appends one payment whose `trxId` is the
trimmed request value, which no stored payment had. -/
theorem createPayment_cases (db : Store) (now : Nat) (newId : String) (body : PaymentBody) :
    ((Server.createPayment db now newId body).db = db ∧
      (Server.createPayment db now newId body).response.status ≠ 201) ∨
    (∃ p : Payment,
      (Server.createPayment db now newId body).db =
        { db with payments := db.payments ++ [p] } ∧
      (Server.createPayment db now newId body).response.status = 201 ∧
      p.trxId = jsTrim (body.trxId.getD "") ∧
      ∀ q ∈ db.payments, q.trxId ≠ p.trxId) := by
  unfold Server.createPayment
  simp only
  split_ifs with h1 h2
  · left; exact ⟨rfl, by simp⟩
  · left; exact ⟨rfl, by simp⟩
  · split
    · left; exact ⟨rfl, by simp⟩
    · split
      · rename_i db1 payment hsave
        right
        unfold savePayment at hsave
        split at hsave
        · split_ifs at hsave with hany
          simp only [Except.ok.injEq, Prod.mk.injEq] at hsave
          obtain ⟨hdb, hp⟩ := hsave
          refine ⟨payment, ?_, rfl, ?_, ?_⟩
          · rw [← hdb, ← hp]
          · rw [← hp]
          · intro q hq hqp
            apply hany
            rw [any_trx_iff]
            exact ⟨q, hq, by rw [hqp, ← hp]⟩
        · exact absurd hsave (by simp)
      · left; exact ⟨rfl, by simp⟩
      · left; exact ⟨rfl, by simp⟩

theorem uniqueTrx_createPayment (db : Store) (now : Nat) (newId : String) (body : PaymentBody)
    (h : uniqueTrx db.payments) :
    uniqueTrx (Server.createPayment db now newId body).db.payments := by
  rcases createPayment_cases db now newId body with ⟨hdb, _⟩ | ⟨p, hdb, _, _, hnew⟩
  · rw [hdb]; exact h
  · rw [hdb]
    unfold uniqueTrx at *
    rw [List.pairwise_append]
    refine ⟨h, List.pairwise_singleton _ _, ?_⟩
    intro q hq r hr
    have hrp : r = p := by simpa using hr
    rw [hrp]
    exact hnew q hq

theorem uniqueTrx_runCreates (requests : List PaymentRequest) (db : Store)
    (h : uniqueTrx db.payments) : uniqueTrx (runCreates db requests).payments := by
  induction requests generalizing db with
  | nil => exact h
  | cons r rs ih =>
    exact ih _ (uniqueTrx_createPayment db r.now r.newId r.body h)

/-- A request whose trimmed trxId is already stored, whose trimmed email is not
empty and whose amount parses, is answered 400. -/
theorem createPayment_duplicate_status (db : Store) (now : Nat) (newId : String)
    (body : PaymentBody)
    (hdup : ∃ p ∈ db.payments, p.trxId = jsTrim (body.trxId.getD ""))
    (hne : jsTrim (body.trxId.getD "") ≠ "")
    (hemail : jsTrim (body.email.getD "") ≠ "")
    (hamount : parseInt (body.amount.withDefault (.num (.fin 0))) ≠ none) :
    (Server.createPayment db now newId body).response.status = 400 := by
  unfold Server.createPayment
  simp only
  split_ifs with h1 h2
  · rfl
  · rfl
  · split
    · rfl
    · obtain ⟨n, hn⟩ := Option.ne_none_iff_exists'.mp hamount
      have hany : db.payments.any (fun p => decide (p.trxId = jsTrim (body.trxId.getD ""))) = true :=
        (any_trx_iff _ _).mpr hdup
      simp [savePayment, validatePayment, checkRequired, castAmount, hn, hne, hemail, hany]

theorem parseInt_500 : parseInt (.num (.fin 500)) = some 500 := by
  have h1 : (1 : ℚ) / 10 ^ 6 ≤ |(500 : ℚ)| := by norm_num [abs_of_nonneg]
  have h2 : |(500 : ℚ)| < 10 ^ 21 := by norm_num [abs_of_nonneg]
  have hnum : (500 : ℚ).num = 500 := rfl
  have hden : (500 : ℚ).den = 1 := rfl
  simp only [parseInt, parseIntNumber]
  rw [if_neg (by norm_num), if_pos ⟨h1, h2⟩, hnum, hden]
  rfl

theorem createPayment_firstPayment :
    Server.createPayment emptyStore 1 "p1" firstPayment =
      ⟨⟨[], [], [], [⟨"p1", "amina@bubt.edu", "T1", 500, "topup", "pending",
          ⟨none, none, none⟩, 1⟩]⟩,
        ⟨201, .paymentCreated "Payment request submitted successfully!"
          ⟨"p1", "T1", 500, "pending", 1⟩⟩⟩ := by
  have ht1 : jsTrim "T1" = "T1" := by decide
  have ht2 : jsTrim "amina@bubt.edu" = "amina@bubt.edu" := by decide
  simp [Server.createPayment, JsVal.withDefault, toBoolean, toNumber, leZero, parseInt_500,
    savePayment, validatePayment, checkRequired, castAmount, emptyStore, firstPayment, ht1, ht2]

theorem savePayment_of_errors (db : Store) (newId email trxId : String) (amount : Option Int)
    (type status : String) (userInfo : UserInfo) (createdAt : Nat)
    (h : validatePayment email trxId amount ≠ []) :
    savePayment db newId email trxId amount type status userInfo createdAt =
      .error (.validation (validatePayment email trxId amount)) := by
  unfold savePayment
  cases hv : validatePayment email trxId amount with
  | nil => exact absurd hv h
  | cons e es => cases amount <;> rfl

theorem createPayment_not_accepted_of_errors (db : Store) (now : Nat) (newId : String)
    (body : PaymentBody)
    (h : validatePayment (jsTrim (body.email.getD "")) (jsTrim (body.trxId.getD ""))
      (parseInt (body.amount.withDefault (.num (.fin 0)))) ≠ []) :
    (Server.createPayment db now newId body).response.status ≠ 201 := by
  unfold Server.createPayment
  simp only
  split_ifs
  · simp
  · simp
  · split
    · simp
    · rw [savePayment_of_errors _ _ _ _ _ _ _ _ _ h]
      simp

/-! ## C9 -/

/-- C9, as stated, fails: after the request `firstPayment` (trxId `T1`) is
accepted, the request `blankEmailPayment`, whose trxId ` T1` is equal after
trimming, is not answered 400.  The pre-check looks up ` T1` and finds nothing,
and the schema validation rejects the email, which is empty after trimming,
before the insert reaches the unique index; the handler answers 500. -/
theorem duplicate_trx_answered_500 :
    jsTrim "T1" = jsTrim " T1" ∧
    (Server.createPayment emptyStore 1 "p1" firstPayment).response.status = 201 ∧
    (Server.createPayment (Server.createPayment emptyStore 1 "p1" firstPayment).db 2 "p2"
      blankEmailPayment).response.status = 500 := by
  refine ⟨by decide, ?_, ?_⟩
  · rw [createPayment_firstPayment]
  · rw [createPayment_firstPayment]
    have ht1 : jsTrim " T1" = "T1" := by decide
    have ht2 : jsTrim "   " = "" := by decide
    have hpos : ¬ (500 : ℚ) ≤ 0 := by norm_num
    simp [Server.createPayment, JsVal.withDefault, toBoolean, toNumber, leZero, parseInt_500,
      savePayment, validatePayment, checkRequired, castAmount, blankEmailPayment, ht1, ht2, hpos]

/-- C9, amended.  First part: let two create-payment requests have trxId values
that are equal after trimming, and let the first be accepted (answered 201).
Then the second stores nothing and is not accepted; and it is answered 400
whenever its email is not empty after trimming and its amount parses to an
integer.  Second part: every create request preserves the uniqueness of
`trxId` among the stored payments, so every store reached from the empty
database by create requests has no two payments with the same `trxId`. -/
theorem payment_trx_unique :
    (∀ (db : Store) (now1 now2 : Nat) (id1 id2 : String) (b1 b2 : PaymentBody)
        (t1 t2 : String),
      b1.trxId = some t1 → b2.trxId = some t2 → jsTrim t1 = jsTrim t2 →
      (Server.createPayment db now1 id1 b1).response.status = 201 →
      (Server.createPayment (Server.createPayment db now1 id1 b1).db now2 id2 b2).db =
          (Server.createPayment db now1 id1 b1).db ∧
      (Server.createPayment (Server.createPayment db now1 id1 b1).db now2 id2 b2
          ).response.status ≠ 201 ∧
      (jsTrim (b2.email.getD "") ≠ "" →
        parseInt (b2.amount.withDefault (.num (.fin 0))) ≠ none →
        (Server.createPayment (Server.createPayment db now1 id1 b1).db now2 id2 b2
          ).response.status = 400)) ∧
    (∀ (db : Store) (now : Nat) (newId : String) (body : PaymentBody),
      uniqueTrx db.payments → uniqueTrx (Server.createPayment db now newId body).db.payments) ∧
    (∀ requests : List PaymentRequest, uniqueTrx (runCreates emptyStore requests).payments) := by
  refine ⟨?_, uniqueTrx_createPayment, fun requests =>
    uniqueTrx_runCreates requests emptyStore List.Pairwise.nil⟩
  intro db now1 now2 id1 id2 b1 b2 t1 t2 ht1 ht2 htrim hfirst
  -- the first request appended a payment with the trimmed reference
  obtain ⟨p, hdb1, hp, hnew⟩ :
      ∃ p : Payment, (Server.createPayment db now1 id1 b1).db =
        { db with payments := db.payments ++ [p] } ∧
        p.trxId = jsTrim t2 ∧ jsTrim t2 ≠ "" := by
    rcases createPayment_cases db now1 id1 b1 with ⟨_, hst⟩ | ⟨p, hdb, _, hp, _⟩
    · exact absurd hfirst hst
    · refine ⟨p, hdb, by rw [hp, ht1, ← htrim]; rfl, ?_⟩
      -- an accepted request has a non-empty trimmed reference
      intro hempty
      have hreq : checkRequired "trxId" (jsTrim (b1.trxId.getD "")) ≠ [] := by
        simp [ht1, htrim, hempty, checkRequired]
      have hval : validatePayment (jsTrim (b1.email.getD "")) (jsTrim (b1.trxId.getD ""))
          (parseInt (b1.amount.withDefault (.num (.fin 0)))) ≠ [] := by
        unfold validatePayment
        intro hnil
        rw [List.append_eq_nil, List.append_eq_nil] at hnil
        exact hreq hnil.1.2
      exact createPayment_not_accepted_of_errors db now1 id1 b1 hval hfirst
  have hdup : ∃ q ∈ (Server.createPayment db now1 id1 b1).db.payments,
      q.trxId = jsTrim (b2.trxId.getD "") := by
    rw [hdb1]
    exact ⟨p, by simp, by rw [hp, ht2]; rfl⟩
  have hne : jsTrim (b2.trxId.getD "") ≠ "" := by rw [ht2]; exact hnew
  refine ⟨?_, ?_, fun hemail hamount =>
    createPayment_duplicate_status _ now2 id2 b2 hdup hne hemail hamount⟩
  · rcases createPayment_cases (Server.createPayment db now1 id1 b1).db now2 id2 b2 with
      ⟨h, _⟩ | ⟨q, _, _, hq, hall⟩
    · exact h
    · obtain ⟨r, hr, hrt⟩ := hdup
      exact absurd (hrt.trans hq.symm) (hall r hr)
  · rcases createPayment_cases (Server.createPayment db now1 id1 b1).db now2 id2 b2 with
      ⟨_, h⟩ | ⟨q, _, _, hq, hall⟩
    · exact h
    · obtain ⟨r, hr, hrt⟩ := hdup
      exact absurd (hrt.trans hq.symm) (hall r hr)

/-- C9, amended, instantiated: after `firstPayment` is accepted, the valid
request `paddedPayment` with the reference ` T1` is answered 400 and stores
nothing. -/
theorem payment_trx_unique_witness :
    (Server.createPayment (Server.createPayment emptyStore 1 "p1" firstPayment).db 2 "p2"
        paddedPayment).db = (Server.createPayment emptyStore 1 "p1" firstPayment).db ∧
    (Server.createPayment (Server.createPayment emptyStore 1 "p1" firstPayment).db 2 "p2"
        paddedPayment).response.status = 400 :=
  have h := payment_trx_unique.1 emptyStore 1 2 "p1" "p2" firstPayment paddedPayment "T1" " T1"
    rfl rfl (by decide) (by rw [createPayment_firstPayment])
  ⟨h.1, h.2.2 (by decide) (by
    show parseInt (.num (.fin 500)) ≠ none
    rw [parseInt_500]
    simp)⟩

/-! ## C10 -/

/-- C10. A create-payment request whose email or trxId is absent or empty, or
whose amount is absent (`undefined` or `null`), zero or negative (its numeric
value is a number `q ≤ 0`, or `-Infinity`), is answered 400 and the store is
returned as it was.  In particular the amount `0` is refused. -/
theorem create_payment_rejects_invalid (db : Store) (now : Nat) (newId : String)
    (body : PaymentBody)
    (h : body.email = none ∨ body.email = some "" ∨ body.trxId = none ∨ body.trxId = some "" ∨
      body.amount = .undefined ∨ body.amount = .null ∨
      (∃ q : ℚ, toNumber body.amount = .fin q ∧ q ≤ 0) ∨ toNumber body.amount = .inf true) :
    (Server.createPayment db now newId body).response.status = 400 ∧
    (Server.createPayment db now newId body).db = db ∧
    (body.amount = .num (.fin 0) →
      (Server.createPayment db now newId body).response =
        ⟨400, .failure "Email, TRX ID and amount are required"⟩) := by
  obtain ⟨email, trxId, amount, type, userInfo⟩ := body
  simp only at h
  by_cases h1 : email.getD "" = "" ∨ trxId.getD "" = "" ∨
      toBoolean (amount.withDefault (.num (.fin 0))) = false
  · refine ⟨?_, ?_, ?_⟩ <;> simp [Server.createPayment, h1]
  · have hle : leZero (toNumber (amount.withDefault (.num (.fin 0)))) = true := by
      rcases h with h | h | h | h | h | h | h | h
      · exact absurd (by simp [h]) h1
      · exact absurd (by simp [h]) h1
      · exact absurd (by simp [h]) h1
      · exact absurd (by simp [h]) h1
      · exact absurd (by simp [h, JsVal.withDefault, toBoolean]) h1
      · exact absurd (by simp [h, JsVal.withDefault, toBoolean]) h1
      · obtain ⟨q, hq, hq0⟩ := h
        cases amount <;> simp_all [JsVal.withDefault, toNumber, leZero]
      · cases amount <;> simp_all [JsVal.withDefault, toNumber, leZero]
    refine ⟨?_, ?_, ?_⟩
    · simp [Server.createPayment, h1, hle]
    · simp [Server.createPayment, h1, hle]
    · intro h0
      have h0a : amount = .num (.fin 0) := h0
      subst h0a
      exact absurd (by simp [JsVal.withDefault, toBoolean]) h1

/-- C10 instantiated: a request with `amount = 0`. -/
theorem create_payment_rejects_invalid_witness :
    (Server.createPayment demoPending 5 "p1"
      ⟨some "amina@bubt.edu", some "T1", .num (.fin 0), none, none⟩).response =
        ⟨400, .failure "Email, TRX ID and amount are required"⟩ :=
  (create_payment_rejects_invalid demoPending 5 "p1"
    ⟨some "amina@bubt.edu", some "T1", .num (.fin 0), none, none⟩
    (Or.inr (Or.inr (Or.inr (Or.inr (Or.inr (Or.inr (Or.inl ⟨0, rfl, le_refl 0⟩)))))))).2.2 rfl

/-! ## C11 -/

/-- C11 fails on `server.js`: `demoTokenAdmin` holds a token that expires at time
1000, and a reset request with the right email and token arrives at time 1000,
when the expiry is not later than now.  The handler of `server.js`, which
tests `resetTokenExpires < Date.now()`, answers 200 and replaces the password;
`exports.resetPassword` of `authController.js`, which queries
`resetTokenExpires: { $gt: Date.now() }`, refuses the same request with 400
and leaves the store unchanged. -/
theorem reset_at_expiry_instant :
    (Server.resetPassword demoEnv demoTokenStore 1000 demoReset).response.status = 200 ∧
    (Server.resetPassword demoEnv demoTokenStore 1000 demoReset).db =
      ⟨[{ demoAdmin with password := "bcrypt:secret1" }], [], [], []⟩ ∧
    AuthController.resetPassword demoEnv demoTokenStore 1000 demoReset =
      ⟨demoTokenStore, ⟨400, .error "Invalid or expired token."⟩⟩ := by
  decide

/-! ## C16 -/

/-- C16 fails on `server.js`: with a working mail transport, forgot-password
answers the registered email of `demoAdmin` and an unregistered email with
different bodies, so the response reveals whether the email is registered.
`exports.forgotPassword` of `authController.js` answers both with the same
response. -/
theorem forgot_password_reveals_email :
    (Server.forgotPassword demoEnv demoStore 1000 (List.replicate 32 7) true true
        ⟨some "admin@bubt.edu"⟩).response =
      ⟨200, .success "Password reset link has been sent to your email."⟩ ∧
    (Server.forgotPassword demoEnv demoStore 1000 (List.replicate 32 7) true true
        ⟨some "nobody@bubt.edu"⟩).response =
      ⟨200, .success "If the email exists, a reset link will be sent."⟩ ∧
    (AuthController.forgotPassword demoEnv demoStore 1000 (List.replicate 32 7) true
        ⟨some "admin@bubt.edu"⟩).response =
      (AuthController.forgotPassword demoEnv demoStore 1000 (List.replicate 32 7) true
        ⟨some "nobody@bubt.edu"⟩).response := by
  decide

/-! ## C17 -/

/-- C17 fails on the code.  First part: `demoTokenAdmin` holds an unexpired
token whose hash matches; `exports.resetPassword` saves the new password
hash, clears the token, and then answers 500, because `successfulResponse()`
throws.  Second part: for every environment, store, time and body,
`exports.resetPassword` never answers 200. -/
theorem controller_reset_answers_500 :
    AuthController.resetPassword demoEnv demoTokenStore 500 demoReset =
      ⟨⟨[{ demoAdmin with password := "bcrypt:secret1" }], [], [], []⟩,
        ⟨500, .error "Server error during password reset."⟩⟩ ∧
    ∀ (env : Env) (db : Store) (now : Nat) (body : ResetBody),
      (AuthController.resetPassword env db now body).response.status ≠ 200 := by
  refine ⟨by decide, ?_⟩
  intro env db now body
  unfold AuthController.resetPassword
  split
  · split_ifs
    · simp
    · split
      · simp
      · simp [AuthController.successfulResponse]
  · simp

/-! ## C12 -/

/-- C12. For an administrator `a` found by the non-empty email `e` at time
`now`, forgot-password (in `server.js` whatever the mail transport does, and
in `authController.js`) saves `a` with `resetTokenHash` set to the SHA-256 hex
digest of the token `toHex randomBytes` and `resetTokenExpires = now + 3600000`,
and with no other field changed, so the plaintext token is not written to the
record.  When the mail is sent, its reset link is the frontend URL followed by
the plaintext token and the URL-encoded email; it contains both. -/
theorem forgot_password_stores_hash (env : Env) (db : Store) (a : Admin) (e : String)
    (now : Nat) (randomBytes : List Nat) (smtpVerify sendMail : Bool)
    (hfind : findAdminByEmail db e = some a) (he : e ≠ "") :
    let stored : Admin :=
      { a with resetTokenHash := some (env.sha256Hex (toHex randomBytes)),
               resetTokenExpires := some (now + 3600000) }
    let link := env.FRONTEND_URL ++ "/reset-password?token=" ++ toHex randomBytes ++ "&email="
      ++ env.encodeURIComponent e
    (Server.forgotPassword env db now randomBytes smtpVerify sendMail ⟨some e⟩).db
      = saveAdmin db stored ∧
    findAdminByEmail
      (Server.forgotPassword env db now randomBytes smtpVerify sendMail ⟨some e⟩).db e
      = some stored ∧
    (Server.forgotPassword env db now randomBytes true true ⟨some e⟩).mail = some ⟨e, link⟩ ∧
    (AuthController.forgotPassword env db now randomBytes sendMail ⟨some e⟩).db
      = saveAdmin db stored ∧
    (AuthController.forgotPassword env db now randomBytes true ⟨some e⟩).mail = some ⟨e, link⟩ ∧
    (toHex randomBytes).data <:+: link.data ∧
    (env.encodeURIComponent e).data <:+: link.data := by
  intro stored link
  have hae : a.email = e := findAdminByEmail_email db e a hfind
  have h1 : (Server.forgotPassword env db now randomBytes smtpVerify sendMail ⟨some e⟩).db
      = saveAdmin db stored := by
    simp only [Server.forgotPassword, he, hfind, if_false]
    cases smtpVerify <;> cases sendMail <;> simp [stored]
  refine ⟨h1, ?_, ?_, ?_, ?_, ?_, ?_⟩
  · rw [h1]
    exact findAdminByEmail_saveAdmin db e a stored hfind hae rfl
  · simp [Server.forgotPassword, he, hfind, link]
  · simp only [AuthController.forgotPassword, he, hfind, if_false]
    cases sendMail <;> simp [stored, preSave]
  · simp [AuthController.forgotPassword, he, hfind, link]
  · exact ⟨(env.FRONTEND_URL ++ "/reset-password?token=").data,
      ("&email=" ++ env.encodeURIComponent e).data,
      by simp only [link, String.data_append, List.append_assoc]⟩
  · simp only [link, String.data_append]
    exact (List.suffix_append _ _).isInfix

/-- C12 instantiated on `demoAdmin`: the stored hash is the digest of the
token. -/
theorem forgot_password_stores_hash_witness :
    findAdminByEmail
      (Server.forgotPassword demoEnv demoStore 1000 (List.replicate 32 7) true true
        ⟨some "admin@bubt.edu"⟩).db "admin@bubt.edu"
      = some { demoAdmin with
          resetTokenHash := some (demoEnv.sha256Hex (toHex (List.replicate 32 7))),
          resetTokenExpires := some (1000 + 3600000) } :=
  (forgot_password_stores_hash demoEnv demoStore demoAdmin "admin@bubt.edu" 1000
    (List.replicate 32 7) true true (by decide) (by decide)).2.1

/-! ## C13 -/

theorem authMiddleware_rejects (env : Env) (now : Nat) (authorization : Option String)
    (h : (authorization.bind fun h => (jsSplit ' ' h)[1]?) = none ∨
      (authorization.bind fun h => (jsSplit ' ' h)[1]?) = some "" ∨
      ∃ t, (authorization.bind fun h => (jsSplit ' ' h)[1]?) = some t ∧
        env.jwtVerify t env.JWT_SECRET now = none) :
    ∃ response : Response, response.status = 401 ∧
      Server.authMiddleware env now authorization = .error response := by
  unfold Server.authMiddleware
  rcases h with h | h | ⟨t, h, hv⟩
  · rw [h]; exact ⟨_, rfl, rfl⟩
  · rw [h]; exact ⟨_, rfl, rfl⟩
  · rw [h]
    by_cases ht : t = ""
    · simp only [ht, if_true]; exact ⟨_, rfl, rfl⟩
    · simp only [ht, if_false, hv]; exact ⟨_, rfl, rfl⟩

theorem authMiddleware_accepts (env : Env) (now : Nat) (authorization : Option String)
    (t : String) (decoded : JwtPayload)
    (h : (authorization.bind fun h => (jsSplit ' ' h)[1]?) = some t) (ht : t ≠ "")
    (hv : env.jwtVerify t env.JWT_SECRET now = some decoded) :
    Server.authMiddleware env now authorization = .ok decoded.id := by
  unfold Server.authMiddleware
  rw [h]
  simp only [ht, if_false, hv]

/-- C13. Let `token` be the second space-separated part of the Authorization
header.  If the header is absent, has no token part, has an empty one, or
`jwt.verify` rejects the token, then every route behind `authMiddleware`
answers 401 and returns the store as it was, whatever its handler is: the
handler is not run.  This holds in particular for the dashboard, fetch
application, action and list students routes.  Otherwise `authMiddleware`
calls next with `adminId` equal to the `id` claim of the verified token, and
each route is the run of its handler. -/
theorem admin_routes_guarded (env : Env) (db : Store) (now : Nat)
    (authorization : Option String) (newId id studentId : String) (body : ActionBody) :
    ((authorization.bind fun h => (jsSplit ' ' h)[1]?) = none ∨
      (authorization.bind fun h => (jsSplit ' ' h)[1]?) = some "" ∨
      (∃ t, (authorization.bind fun h => (jsSplit ' ' h)[1]?) = some t ∧
        env.jwtVerify t env.JWT_SECRET now = none) →
      (∃ response : Response, response.status = 401 ∧
        ∀ handler : String → Outcome,
          Server.guarded env now authorization db handler = ⟨db, response⟩) ∧
      (Server.dashboardRoute env now authorization db).response.status = 401 ∧
      (Server.dashboardRoute env now authorization db).db = db ∧
      (Server.fetchApplicationRoute env now authorization db studentId).response.status = 401 ∧
      (Server.fetchApplicationRoute env now authorization db studentId).db = db ∧
      (Server.applicationActionRoute env now authorization db newId id body
        ).response.status = 401 ∧
      (Server.applicationActionRoute env now authorization db newId id body).db = db ∧
      (Server.listStudentsRoute env now authorization db).response.status = 401 ∧
      (Server.listStudentsRoute env now authorization db).db = db) ∧
    (∀ (t : String) (decoded : JwtPayload),
      (authorization.bind fun h => (jsSplit ' ' h)[1]?) = some t → t ≠ "" →
      env.jwtVerify t env.JWT_SECRET now = some decoded →
      Server.authMiddleware env now authorization = .ok decoded.id ∧
      (∀ handler : String → Outcome,
        Server.guarded env now authorization db handler = handler decoded.id) ∧
      Server.dashboardRoute env now authorization db = ⟨db, Server.dashboard db⟩ ∧
      Server.fetchApplicationRoute env now authorization db studentId =
        ⟨db, Server.fetchApplication db studentId⟩ ∧
      Server.applicationActionRoute env now authorization db newId id body =
        Server.applicationAction db now newId id body ∧
      Server.listStudentsRoute env now authorization db = ⟨db, Server.listStudents db⟩) := by
  constructor
  · intro h
    obtain ⟨response, hst, hmw⟩ := authMiddleware_rejects env now authorization h
    have hg : ∀ handler : String → Outcome,
        Server.guarded env now authorization db handler = ⟨db, response⟩ := by
      intro handler
      simp [Server.guarded, hmw]
    refine ⟨⟨response, hst, hg⟩, ?_, ?_, ?_, ?_, ?_, ?_, ?_, ?_⟩ <;>
      simp [Server.dashboardRoute, Server.fetchApplicationRoute, Server.applicationActionRoute,
        Server.listStudentsRoute, hg, hst]
  · intro t decoded h ht hv
    have hmw := authMiddleware_accepts env now authorization t decoded h ht hv
    have hg : ∀ handler : String → Outcome,
        Server.guarded env now authorization db handler = handler decoded.id := by
      intro handler
      simp [Server.guarded, hmw]
    refine ⟨hmw, hg, ?_, ?_, ?_, ?_⟩ <;>
      simp [Server.dashboardRoute, Server.fetchApplicationRoute, Server.applicationActionRoute,
        Server.listStudentsRoute, hg]

/-- C13 instantiated: without an Authorization header the action route answers
401 and `demoPending` is unchanged, although the body asks to approve an
existing record. -/
theorem admin_routes_guarded_witness :
    (Server.applicationActionRoute demoEnv 5 none demoPending "app1" "s1"
      ⟨.str "approve", none⟩).response.status = 401 ∧
    (Server.applicationActionRoute demoEnv 5 none demoPending "app1" "s1"
      ⟨.str "approve", none⟩).db = demoPending :=
  have h := (admin_routes_guarded demoEnv demoPending 5 none "app1" "s1" "S1"
    ⟨.str "approve", none⟩).1 (Or.inl rfl)
  ⟨h.2.2.2.2.2.1, h.2.2.2.2.2.2.1⟩

/-! ## Lemmas on valid submissions -/

theorem jsTrim_empty : jsTrim "" = "" := rfl

theorem validSubmission_field (body : SubmitBody) (h : validSubmission body) (f : String)
    (hf : f ∈ requiredFields) :
    ∃ s, body.field f = some s ∧ s ≠ "" ∧ jsTrim s ≠ "" := by
  have hb := h f hf
  cases hv : body.field f with
  | none => rw [hv] at hb; exact absurd trivial hb
  | some s =>
    rw [hv] at hb
    refine ⟨s, rfl, ?_, hb⟩
    intro hs
    exact hb (by rw [hs]; exact jsTrim_empty)

theorem missingFields_of_valid (body : SubmitBody) (h : validSubmission body) :
    missingFields body = [] := by
  unfold missingFields
  rw [List.filter_eq_nil_iff]
  intro f hf
  obtain ⟨s, hs, hne, _⟩ := validSubmission_field body h f hf
  simp [hs, truthy, hne]

theorem validateStudent_of_valid (now : Nat) (newId : String) (body : SubmitBody)
    (files : Files) (h : validSubmission body) :
    validateStudent (Server.studentData now newId body files) = [] := by
  obtain ⟨s1, h1, _, t1⟩ := validSubmission_field body h "studentId" (by decide)
  obtain ⟨s2, h2, _, t2⟩ := validSubmission_field body h "firstName" (by decide)
  obtain ⟨s3, h3, _, t3⟩ := validSubmission_field body h "lastName" (by decide)
  obtain ⟨s4, h4, _, t4⟩ := validSubmission_field body h "email" (by decide)
  obtain ⟨s5, h5, _, t5⟩ := validSubmission_field body h "trxId" (by decide)
  simp only [SubmitBody.field] at h1 h2 h3 h4 h5
  simp at h1 h2 h3 h4 h5
  simp [validateStudent, Server.studentData, checkRequired, h1, h2, h3, h4, h5, t1, t2, t3, t4,
    t5, jsOr_ne_empty]

theorem submit_of_valid (db : Store) (now : Nat) (newId : String) (body : SubmitBody)
    (files : Files) (h : validSubmission body) :
    Server.submit db now newId body files =
      ⟨{ db with students := db.students ++ [Server.studentData now newId body files] },
        ⟨201, .studentCreated "Application submitted successfully!"
          ⟨newId, (Server.studentData now newId body files).studentId,
            (Server.studentData now newId body files).firstName ++ " " ++
              (Server.studentData now newId body files).lastName,
            "pending", now⟩⟩⟩ := by
  have hv := validateStudent_of_valid now newId body files h
  simp only [Server.submit, missingFields_of_valid body h, saveNewStudent, hv]
  simp [Server.studentData]

theorem jsOr_default (x : Option String) (d : String) (h : x = none ∨ x = some "") :
    jsOr x d = d := by
  rcases h with h | h <;> simp [h, jsOr]

theorem jsOr_supplied (x : Option String) (d v : String) (h : x = some v) (hv : v ≠ "") :
    jsOr x d = v := by
  simp [h, jsOr, hv]

/-! ## C18 -/

/-- C18. A valid submission (none of the five required fields absent, empty,
or empty after trimming) is answered 201 and appends exactly one record to
the pending collection.  Its `studentId`, `firstName`, `lastName`, `email` and
`trxId` are the trimmed inputs; its `status` is `pending` whatever `status` the
body carries; and each of `cardType`, `program`, `amount`, `requestType` is
the supplied value when it is non-empty, and otherwise `student`,
`Not Specified`, `0`, `new`. -/
theorem submit_creates_record (db : Store) (now : Nat) (newId : String) (body : SubmitBody)
    (files : Files) (h : validSubmission body) :
    ∃ r : Student,
      (Server.submit db now newId body files).response.status = 201 ∧
      (Server.submit db now newId body files).db.students = db.students ++ [r] ∧
      body.studentId.map jsTrim = some r.studentId ∧
      body.firstName.map jsTrim = some r.firstName ∧
      body.lastName.map jsTrim = some r.lastName ∧
      body.email.map jsTrim = some r.email ∧
      body.trxId.map jsTrim = some r.trxId ∧
      r.status = "pending" ∧
      (body.cardType = none ∨ body.cardType = some "" → r.cardType = "student") ∧
      (∀ v, body.cardType = some v → v ≠ "" → r.cardType = v) ∧
      (body.program = none ∨ body.program = some "" → r.program = "Not Specified") ∧
      (∀ v, body.program = some v → v ≠ "" → r.program = v) ∧
      (body.amount = none ∨ body.amount = some "" → r.amount = "0") ∧
      (∀ v, body.amount = some v → v ≠ "" → r.amount = v) ∧
      (body.requestType = none ∨ body.requestType = some "" → r.requestType = "new") ∧
      (∀ v, body.requestType = some v → v ≠ "" → r.requestType = v) := by
  obtain ⟨s1, h1, _, _⟩ := validSubmission_field body h "studentId" (by decide)
  obtain ⟨s2, h2, _, _⟩ := validSubmission_field body h "firstName" (by decide)
  obtain ⟨s3, h3, _, _⟩ := validSubmission_field body h "lastName" (by decide)
  obtain ⟨s4, h4, _, _⟩ := validSubmission_field body h "email" (by decide)
  obtain ⟨s5, h5, _, _⟩ := validSubmission_field body h "trxId" (by decide)
  simp only [SubmitBody.field] at h1 h2 h3 h4 h5
  simp at h1 h2 h3 h4 h5
  refine ⟨Server.studentData now newId body files, ?_, ?_, ?_, ?_, ?_, ?_, ?_, rfl,
    fun hd => jsOr_default _ _ hd, fun v hv hne => jsOr_supplied _ _ v hv hne,
    fun hd => jsOr_default _ _ hd, fun v hv hne => jsOr_supplied _ _ v hv hne,
    fun hd => jsOr_default _ _ hd, fun v hv hne => jsOr_supplied _ _ v hv hne,
    fun hd => jsOr_default _ _ hd, fun v hv hne => jsOr_supplied _ _ v hv hne⟩
  · rw [submit_of_valid db now newId body files h]
  · rw [submit_of_valid db now newId body files h]
  · simp [Server.studentData, h1]
  · simp [Server.studentData, h2]
  · simp [Server.studentData, h3]
  · simp [Server.studentData, h4]
  · simp [Server.studentData, h5]

/-- C18 instantiated: a valid submission that also carries `status = approved`
and pads its student id is stored as pending under the trimmed id. -/
theorem submit_creates_record_witness :
    ∃ r : Student,
      (Server.submit demoPending 5 "s2"
        { demoSubmit (some " S2 ") (some "Amina") with status := some "approved" }
        noFiles).db.students = demoPending.students ++ [r] ∧
      r.studentId = "S2" ∧ r.status = "pending" ∧ r.cardType = "student" :=
  have hvalid : validSubmission
      { demoSubmit (some " S2 ") (some "Amina") with status := some "approved" } := by
    unfold validSubmission
    decide
  (submit_creates_record demoPending 5 "s2"
    { demoSubmit (some " S2 ") (some "Amina") with status := some "approved" } noFiles
    hvalid).elim fun r hr =>
      ⟨r, hr.2.1, by
        have := hr.2.2.1
        have h2 : jsTrim " S2 " = "S2" := by decide
        simpa [demoSubmit, h2] using this.symm, hr.2.2.2.2.2.2.2.1,
        hr.2.2.2.2.2.2.2.2.1 (Or.inl rfl)⟩

/-! ## C19 -/

theorem sortNewestFirst_perm (l : List Student) : (sortNewestFirst l).Perm l :=
  List.perm_insertionSort newestFirst l

theorem sortNewestFirst_sorted (l : List Student) :
    (sortNewestFirst l).Sorted newestFirst := by
  haveI : IsTotal Student newestFirst := ⟨fun a b => Nat.le_total b.createdAt a.createdAt⟩
  haveI : IsTrans Student newestFirst :=
    ⟨fun a b c hab hbc => Nat.le_trans hbc hab⟩
  exact List.sorted_insertionSort newestFirst l

/-- C19. The dashboard answers 200 with a list that holds exactly the records
of the pending collection whose status is `pending` (it is a permutation of
them, so rejected records are excluded and nothing is repeated or lost), in
order of `createdAt` descending, and `totalPending` is the length of that
list. -/
theorem dashboard_lists_pending (db : Store) :
    ∃ list : List Student,
      Server.dashboard db = ⟨200, .dashboard list list.length⟩ ∧
      list.Perm (db.students.filter fun s => decide (s.status = "pending")) ∧
      (∀ s, s ∈ list ↔ s ∈ db.students ∧ s.status = "pending") ∧
      list.Sorted (fun a b => b.createdAt ≤ a.createdAt) := by
  refine ⟨sortNewestFirst (db.students.filter fun s => decide (s.status = "pending")), rfl,
    sortNewestFirst_perm _, ?_, sortNewestFirst_sorted _⟩
  intro s
  rw [(sortNewestFirst_perm _).mem_iff, List.mem_filter]
  simp

/-- C19 on `demoMixed`, evaluated: the rejected record is left out and the newer
pending record comes first. -/
theorem dashboard_demoMixed :
    Server.dashboard demoMixed =
      ⟨200, .dashboard [{ demoStudent with _id := "s3", createdAt := 2 },
                        { demoStudent with _id := "s1", createdAt := 1 }] 2⟩ := by
  decide

/-! ## C20 -/

/-- C20. Fetching by `studentId`: when the pending collection holds a record
with that `studentId`, the answer is 200 with such a pending record; when it
holds none and the approved collection holds one, the answer is 200 with such
an approved record; and the answer is 404 exactly when neither collection
holds a record with that `studentId`. -/
theorem fetch_pending_then_approved (db : Store) (studentId : String) :
    ((∃ p ∈ db.students, p.studentId = studentId) →
      ∃ p ∈ db.students, p.studentId = studentId ∧
        Server.fetchApplication db studentId = ⟨200, .pendingRecord p⟩) ∧
    ((∀ p ∈ db.students, p.studentId ≠ studentId) →
      (∃ a ∈ db.applications, a.studentId = studentId) →
      ∃ a ∈ db.applications, a.studentId = studentId ∧
        Server.fetchApplication db studentId = ⟨200, .approvedRecord a⟩) ∧
    ((Server.fetchApplication db studentId).status = 404 ↔
      (∀ p ∈ db.students, p.studentId ≠ studentId) ∧
      (∀ a ∈ db.applications, a.studentId ≠ studentId)) := by
  unfold Server.fetchApplication
  cases hp : db.students.find? (fun s => decide (s.studentId = studentId)) with
  | some p =>
    have hmem : p ∈ db.students := List.mem_of_find?_eq_some hp
    have hid : p.studentId = studentId := by simpa using List.find?_some hp
    refine ⟨fun _ => ⟨p, hmem, hid, rfl⟩, fun hnone _ => absurd hid (hnone p hmem), ?_⟩
    constructor
    · intro h; simp at h
    · intro h; exact absurd hid (h.1 p hmem)
  | none =>
    have hnone : ∀ p ∈ db.students, p.studentId ≠ studentId := by simpa using hp
    cases ha : db.applications.find? (fun a => decide (a.studentId = studentId)) with
    | some a =>
      have hmem : a ∈ db.applications := List.mem_of_find?_eq_some ha
      have hid : a.studentId = studentId := by simpa using List.find?_some ha
      refine ⟨fun ⟨p, hpm, hps⟩ => absurd hps (hnone p hpm), fun _ _ => ⟨a, hmem, hid, rfl⟩, ?_⟩
      constructor
      · intro h; simp at h
      · intro h; exact absurd hid (h.2 a hmem)
    | none =>
      have hnoneA : ∀ a ∈ db.applications, a.studentId ≠ studentId := by simpa using ha
      refine ⟨fun ⟨p, hpm, hps⟩ => absurd hps (hnone p hpm),
        fun _ ⟨a, ham, has⟩ => absurd has (hnoneA a ham), ?_⟩
      constructor
      · intro _; exact ⟨hnone, hnoneA⟩
      · intro _; rfl

/-- C20 instantiated: `demoPending` holds `S1` in the pending collection. -/
theorem fetch_pending_then_approved_witness :
    ∃ p ∈ demoPending.students, p.studentId = "S1" ∧
      Server.fetchApplication demoPending "S1" = ⟨200, .pendingRecord p⟩ :=
  (fetch_pending_then_approved demoPending "S1").1 ⟨demoStudent, by decide, by decide⟩

/-! ## Lemmas on the end-to-end scenario -/

theorem fetchApplication_approved (db : Store) (studentId : String)
    (hnone : ∀ p ∈ db.students, p.studentId ≠ studentId)
    (hsome : ∃ a ∈ db.applications, a.studentId = studentId) :
    ∃ a ∈ db.applications, a.studentId = studentId ∧
      Server.fetchApplication db studentId = ⟨200, .approvedRecord a⟩ := by
  unfold Server.fetchApplication
  have hp : db.students.find? (fun s => decide (s.studentId = studentId)) = none := by
    simpa using hnone
  rw [hp]
  cases ha : db.applications.find? (fun a => decide (a.studentId = studentId)) with
  | some a =>
    exact ⟨a, List.mem_of_find?_eq_some ha, by simpa using List.find?_some ha, rfl⟩
  | none =>
    obtain ⟨a, ham, has⟩ := hsome
    have hnoneA : ∀ a ∈ db.applications, a.studentId ≠ studentId := by simpa using ha
    exact absurd has (hnoneA a ham)

theorem approve_created (db : Store) (now : Nat) (appId : String) (r : Student)
    (reason : Option String)
    (hfresh : ∀ s ∈ db.students, s._id ≠ r._id) :
    Server.applicationAction { db with students := db.students ++ [r] } now appId r._id
        ⟨.str "approve", reason⟩ =
      ⟨{ db with applications := db.applications ++ [approvedCopy r now appId] },
        ⟨200, .success "Application approved successfully"⟩⟩ := by
  have hfind : findStudentById { db with students := db.students ++ [r] } r._id = some r := by
    unfold findStudentById
    have hnone : db.students.find? (fun s => decide (s._id = r._id)) = none := by
      simpa using hfresh
    simp [List.find?_append, hnone]
  have herase : (db.students ++ [r]).eraseP (fun s => decide (s._id = r._id)) = db.students := by
    rw [List.eraseP_append_right _ (by simpa using hfresh)]
    simp [List.eraseP_cons]
  simp only [Server.applicationAction, hfind]
  simp [toBoolean, herase]

/-! ## C14 -/

/-- C14, as stated, fails on a store that already holds a pending application
with the same `studentId`: `demoPending` holds `S1`; a valid submission for
`S1` is answered 201 and creates the record `s2`; after `s2` is approved,
fetching `S1` still answers with the older pending record, whose
`paymentStatus` is `Pending`. -/
theorem fetch_after_approve_returns_pending :
    validSubmission (demoSubmit (some "S1") (some "Amina")) ∧
    (Server.submit demoPending 5 "s2" (demoSubmit (some "S1") (some "Amina")) noFiles
      ).response.status = 201 ∧
    (Server.applicationAction
      (Server.submit demoPending 5 "s2" (demoSubmit (some "S1") (some "Amina")) noFiles).db
      6 "app1" "s2" ⟨.str "approve", none⟩).response.status = 200 ∧
    Server.fetchApplication
      (Server.applicationAction
        (Server.submit demoPending 5 "s2" (demoSubmit (some "S1") (some "Amina")) noFiles).db
        6 "app1" "s2" ⟨.str "approve", none⟩).db "S1"
      = ⟨200, .pendingRecord demoStudent⟩ ∧
    demoStudent.paymentStatus = "Pending" := by
  unfold validSubmission
  decide

/-- C14, amended.  Let the store hold no pending record with the `_id` generated
for the new document and none whose `studentId` is the trimmed `studentId` of
a valid submission, and let every approved record have `paymentStatus`
`Approved`.  Then submit answers 201 with status `pending`; approving the
created record answers 200; afterwards the dashboard list holds no record with
that `_id`; and fetching the trimmed `studentId` answers 200 with an approved
record of that `studentId` whose `paymentStatus` is `Approved`. -/
theorem submit_approve_fetch (db : Store) (now1 now2 : Nat) (newId appId sid : String)
    (body : SubmitBody) (files : Files) (reason : Option String)
    (hvalid : validSubmission body)
    (hsid : body.studentId = some sid)
    (hfresh : ∀ s ∈ db.students, s._id ≠ newId)
    (hnodup : ∀ s ∈ db.students, s.studentId ≠ jsTrim sid)
    (happ : ∀ a ∈ db.applications, a.paymentStatus = "Approved") :
    let created := Server.submit db now1 newId body files
    let approved := Server.applicationAction created.db now2 appId newId
      ⟨.str "approve", reason⟩
    created.response.status = 201 ∧
    (∃ msg view, created.response.body = .studentCreated msg view ∧ view.status = "pending") ∧
    approved.response.status = 200 ∧
    (∃ list : List Student,
      Server.dashboard approved.db = ⟨200, .dashboard list list.length⟩ ∧
      ∀ s ∈ list, s._id ≠ newId) ∧
    (∃ app : Application,
      Server.fetchApplication approved.db (jsTrim sid) = ⟨200, .approvedRecord app⟩ ∧
      app.studentId = jsTrim sid ∧ app.paymentStatus = "Approved") := by
  intro created approved
  have hcreated := submit_of_valid db now1 newId body files hvalid
  have hrid : (Server.studentData now1 newId body files)._id = newId := rfl
  have hrsid : (Server.studentData now1 newId body files).studentId = jsTrim sid := by
    simp [Server.studentData, hsid]
  have happroved : approved =
      ⟨{ db with applications := db.applications ++
          [approvedCopy (Server.studentData now1 newId body files) now2 appId] },
        ⟨200, .success "Application approved successfully"⟩⟩ := by
    simp only [approved, created, hcreated]
    exact approve_created db now2 appId (Server.studentData now1 newId body files) reason
      (by rw [hrid]; exact hfresh)
  refine ⟨by simp only [created, hcreated], ⟨_, _, by rw [show created = _ from hcreated], rfl⟩,
    by rw [happroved], ?_, ?_⟩
  · refine ⟨_, rfl, ?_⟩
    intro s hs
    rw [happroved] at hs
    have hmem : s ∈ db.students := by
      have := (sortNewestFirst_perm _).mem_iff.mp hs
      exact (List.mem_filter.mp this).1
    exact hfresh s hmem
  · rw [happroved]
    obtain ⟨a, ham, has, hfetch⟩ := fetchApplication_approved
      { db with applications := db.applications ++
          [approvedCopy (Server.studentData now1 newId body files) now2 appId] }
      (jsTrim sid) hnodup
      ⟨approvedCopy (Server.studentData now1 newId body files) now2 appId, by simp,
        by simp [approvedCopy, hrsid]⟩
    refine ⟨a, hfetch, has, ?_⟩
    rcases List.mem_append.mp ham with h | h
    · exact happ a h
    · have : a = approvedCopy (Server.studentData now1 newId body files) now2 appId := by
        simpa using h
      rw [this]
      rfl

/-- C14, amended, instantiated with the scenario of the specification: on the
empty database, `S1` with `T1` and `500` is submitted, approved, and fetched
as approved. -/
theorem submit_approve_fetch_witness :
    ∃ app : Application,
      Server.fetchApplication
        (Server.applicationAction
          (Server.submit emptyStore 5 "s1" (demoSubmit (some "S1") (some "Amina")) noFiles).db
          6 "app1" "s1" ⟨.str "approve", none⟩).db (jsTrim "S1")
        = ⟨200, .approvedRecord app⟩ ∧
      app.studentId = jsTrim "S1" ∧ app.paymentStatus = "Approved" :=
  (submit_approve_fetch emptyStore 5 6 "s1" "app1" "S1"
    (demoSubmit (some "S1") (some "Amina")) noFiles none
    (by unfold validSubmission; decide) rfl (by decide) (by decide) (by decide)).2.2.2.2

/-! ## C15 -/

theorem applicationAction_students (db : Store) (now : Nat) (newId id : String)
    (body : ActionBody) :
    (Server.applicationAction db now newId id body).db.students = db.students ∨
    (Server.applicationAction db now newId id body).db.students =
      db.students.eraseP (fun s => decide (s._id = id)) ∨
    ∃ student ∈ db.students, ∃ assigned : Student, assigned.status = "rejected" ∧
      (Server.applicationAction db now newId id body).db.students =
        (saveStudent db student assigned now).students := by
  by_cases h1 : toBoolean body.action = false ∨
      ¬ (body.action = .str "approve" ∨ body.action = .str "reject")
  · left
    simp only [Server.applicationAction, if_pos h1]
  · cases hfind : findStudentById db id with
    | none =>
      left
      simp only [Server.applicationAction, if_neg h1, hfind]
    | some student =>
      by_cases h2 : body.action = .str "approve"
      · right; left
        simp only [Server.applicationAction, if_neg h1, hfind, if_pos h2]
      · right; right
        refine ⟨student, List.mem_of_find?_eq_some hfind,
          { student with
              status := "rejected"
              rejectionReason :=
                if truthy body.reason then body.reason else student.rejectionReason },
          rfl, ?_⟩
        simp only [Server.applicationAction, if_neg h1, hfind, if_neg h2]

/-- C15, as stated, fails: `rejected` is not terminal.  The action `approve` on
the rejected record `demoRejected` answers 200, removes it from the pending
collection and creates its approved copy; the handler looks the record up by
`_id` and never reads its status. -/
theorem rejected_record_can_be_approved :
    demoRejected.status = "rejected" ∧
    Server.applicationAction demoRejectedStore 7 "app1" "s1" ⟨.str "approve", none⟩ =
      ⟨⟨[], [], [approvedCopy demoRejected 7 "app1"], []⟩,
        ⟨200, .success "Application approved successfully"⟩⟩ := by
  decide

/-- C15, amended.  First part: after any action request, every record of the
pending collection either was there before, unchanged, or has status
`rejected`; so the only status the handler ever sets is `rejected`, and a
record whose status is `pending` afterwards was pending before.  Second part:
if the `_id`s are unique and `r` is a rejected pending record, then after any
action request every pending record with the `_id` of `r` still has status
`rejected` (it can leave the collection through `approve`, it cannot return to
`pending`).  Third part: a submit request leaves the records of the pending
collection as they were and at most appends the new record. -/
theorem status_only_moves_to_rejected :
    (∀ (db : Store) (now : Nat) (newId id : String) (body : ActionBody),
      ∀ s ∈ (Server.applicationAction db now newId id body).db.students,
        s ∈ db.students ∨ s.status = "rejected") ∧
    (∀ (db : Store) (now : Nat) (newId id : String) (body : ActionBody) (r : Student),
      r ∈ db.students → r.status = "rejected" →
      (db.students.Pairwise fun x y => x._id ≠ y._id) →
      ∀ s ∈ (Server.applicationAction db now newId id body).db.students,
        s._id = r._id → s.status = "rejected") ∧
    (∀ (db : Store) (now : Nat) (newId : String) (body : SubmitBody) (files : Files),
      (Server.submit db now newId body files).db.students = db.students ∨
      (Server.submit db now newId body files).db.students =
        db.students ++ [Server.studentData now newId body files]) := by
  have hfirst : ∀ (db : Store) (now : Nat) (newId id : String) (body : ActionBody),
      ∀ s ∈ (Server.applicationAction db now newId id body).db.students,
        s ∈ db.students ∨ s.status = "rejected" := by
    intro db now newId id body s hs
    rcases applicationAction_students db now newId id body with
      h | h | ⟨student, hmem, assigned, hrej, h⟩
    · rw [h] at hs
      exact Or.inl hs
    · rw [h] at hs
      exact Or.inl (List.mem_of_mem_eraseP hs)
    · rw [h] at hs
      simp only [saveStudent, List.mem_map] at hs
      obtain ⟨x, hx, hxs⟩ := hs
      by_cases h3 : x._id = student._id
      · rw [if_pos h3] at hxs
        by_cases h4 : assigned = student
        · rw [if_pos h4] at hxs
          rw [← hxs]
          exact Or.inl hmem
        · rw [if_neg h4] at hxs
          rw [← hxs]
          exact Or.inr hrej
      · rw [if_neg h3] at hxs
        rw [← hxs]
        exact Or.inl hx
  refine ⟨hfirst, ?_, ?_⟩
  · intro db now newId id body r hr hrej huniq s hs hid
    rcases hfirst db now newId id body s hs with h | h
    · rw [id_injective_of_unique db.students huniq s r h hr hid]
      exact hrej
    · exact h
  · intro db now newId body files
    by_cases hm : missingFields body = []
    · cases hv : validateStudent (Server.studentData now newId body files) with
      | nil =>
        right
        simp [Server.submit, hm, saveNewStudent, hv]
      | cons e es =>
        left
        simp [Server.submit, hm, saveNewStudent, hv]
    · left
      simp [Server.submit, hm]

/-- C15, amended, instantiated: rejecting `demoRejected` again leaves it
rejected. -/
theorem status_only_moves_to_rejected_witness :
    ∀ s ∈ (Server.applicationAction demoRejectedStore 7 "app1" "s1"
        ⟨.str "reject", none⟩).db.students,
      s._id = demoRejected._id → s.status = "rejected" :=
  status_only_moves_to_rejected.2.1 demoRejectedStore 7 "app1" "s1" ⟨.str "reject", none⟩
    demoRejected (by decide) (by decide) (by decide)

/-! ## C21 -/

theorem sortPaymentsNewestFirst_perm (l : List Payment) :
    (sortPaymentsNewestFirst l).Perm l :=
  List.perm_insertionSort newestPaymentFirst l

theorem sortPaymentsNewestFirst_sorted (l : List Payment) :
    (sortPaymentsNewestFirst l).Sorted newestPaymentFirst := by
  haveI : IsTotal Payment newestPaymentFirst :=
    ⟨fun a b => Nat.le_total b.createdAt a.createdAt⟩
  haveI : IsTrans Payment newestPaymentFirst :=
    ⟨fun a b c hab hbc => Nat.le_trans hbc hab⟩
  exact List.sorted_insertionSort newestPaymentFirst l

/-- C21. For a non-empty request email, the history handler answers 200 with a
list `list` such that, for some `rest`, `list ++ rest` is a permutation of the
stored payments whose email is the trimmed request email and is ordered by
`createdAt` descending.  So `list` holds only such payments, is itself ordered
newest first, has `min 50 n` entries when `n` payments match, and every
payment left out is at most as new as every payment returned: when more
than 50 match, the 50 newest are returned. -/
theorem history_newest_fifty (db : Store) (email : String) (he : email ≠ "") :
    ∃ list rest : List Payment,
      Server.paymentHistory db ⟨some email⟩ = ⟨200, .payments list⟩ ∧
      (list ++ rest).Perm (db.payments.filter fun p => decide (p.email = jsTrim email)) ∧
      (list ++ rest).Sorted (fun a b => b.createdAt ≤ a.createdAt) ∧
      (∀ p ∈ list, p ∈ db.payments ∧ p.email = jsTrim email) ∧
      list.length ≤ 50 ∧
      list.length =
        min 50 (db.payments.filter fun p => decide (p.email = jsTrim email)).length ∧
      list.Sorted (fun a b => b.createdAt ≤ a.createdAt) ∧
      (∀ p ∈ list, ∀ q ∈ rest, q.createdAt ≤ p.createdAt) := by
  have hperm := sortPaymentsNewestFirst_perm
    (db.payments.filter fun p => decide (p.email = jsTrim email))
  have hsorted := sortPaymentsNewestFirst_sorted
    (db.payments.filter fun p => decide (p.email = jsTrim email))
  have hsplit := List.take_append_drop 50
    (sortPaymentsNewestFirst (db.payments.filter fun p => decide (p.email = jsTrim email)))
  refine ⟨(sortPaymentsNewestFirst
      (db.payments.filter fun p => decide (p.email = jsTrim email))).take 50,
    (sortPaymentsNewestFirst
      (db.payments.filter fun p => decide (p.email = jsTrim email))).drop 50,
    ?_, ?_, ?_, ?_, ?_, ?_, ?_, ?_⟩
  · simp [Server.paymentHistory, he]
  · rw [hsplit]; exact hperm
  · rw [hsplit]; exact hsorted
  · intro p hp
    have hmem := hperm.mem_iff.mp (List.mem_of_mem_take hp)
    simpa using List.mem_filter.mp hmem
  · simp [List.length_take]
  · rw [List.length_take, hperm.length_eq]
  · exact List.Pairwise.sublist (List.take_sublist 50 _) hsorted
  · have hpw : List.Pairwise newestPaymentFirst
        ((sortPaymentsNewestFirst
            (db.payments.filter fun p => decide (p.email = jsTrim email))).take 50 ++
          (sortPaymentsNewestFirst
            (db.payments.filter fun p => decide (p.email = jsTrim email))).drop 50) := by
      rw [hsplit]; exact hsorted
    rw [List.pairwise_append] at hpw
    exact hpw.2.2

/-- C21 instantiated on `demoPayments`: the two payments of `amina@bubt.edu`,
the newer first; the request email is padded. -/
theorem history_newest_fifty_witness :
    ∃ list rest : List Payment,
      Server.paymentHistory demoPayments ⟨some " amina@bubt.edu "⟩ = ⟨200, .payments list⟩ ∧
      (list ++ rest).Perm
        (demoPayments.payments.filter fun p => decide (p.email = jsTrim " amina@bubt.edu ")) ∧
      list.length ≤ 50 :=
  (history_newest_fifty demoPayments " amina@bubt.edu " (by decide)).elim fun list h =>
    h.elim fun rest hr => ⟨list, rest, hr.1, hr.2.1, hr.2.2.2.2.1⟩

/-- The history of `amina@bubt.edu` in `demoPayments`, evaluated. -/
theorem paymentHistory_demoPayments :
    Server.paymentHistory demoPayments ⟨some " amina@bubt.edu "⟩ =
      ⟨200, .payments [demoPaymentAt 3, demoPaymentAt 1]⟩ := by
  decide

theorem half_num : ((1 : ℚ) / 2).num = 1 := by
  norm_num

theorem half_den : ((1 : ℚ) / 2).den = 2 := by
  norm_num

theorem parseInt_half : parseInt (.num (.fin (1 / 2))) = some 0 := by
  have h1 : (1 : ℚ) / 10 ^ 6 ≤ |(1 : ℚ) / 2| := by
    rw [abs_of_nonneg (by norm_num)]; norm_num
  have h2 : |(1 : ℚ) / 2| < 10 ^ 21 := by
    rw [abs_of_nonneg (by norm_num)]; norm_num
  simp only [parseInt, parseIntNumber]
  rw [if_neg (by norm_num), if_pos ⟨h1, h2⟩, half_num, half_den]
  rfl

theorem stringToNumber_0_9 : stringToNumber "0.9" = .fin (9 / 10) := by
  have ht : trimChars "0.9".data = ['0', '.', '9'] := by decide
  have hd1 : takeDigits 10 ['0', '.', '9'] = ([0], ['.', '9']) := by decide
  have hd2 : takeDigits 10 ['9'] = ([9], []) := by decide
  have hinf : ['0', '.', '9'] ≠ "Infinity".data := by decide
  simp [stringToNumber, ht, unsignedDecimal, hd1, hd2, digitsValue]

theorem parseInt_0_9 : parseInt (.str "0.9") = some 0 := by
  decide

end IdCardServer

namespace IdCardServer

theorem createPayment_of_valid (db : Store) (now : Nat) (newId email trxId : String)
    (amount : JsVal) (type : Option String) (userInfo : Option UserInfo) (n : Int)
    (he : email ≠ "") (ht : trxId ≠ "")
    (hb : toBoolean (amount.withDefault (.num (.fin 0))) = true)
    (hl : leZero (toNumber (amount.withDefault (.num (.fin 0)))) = false)
    (hfind : ∀ p ∈ db.payments, p.trxId ≠ trxId)
    (hte : jsTrim email ≠ "") (htt : jsTrim trxId ≠ "")
    (hp : parseInt (amount.withDefault (.num (.fin 0))) = some n)
    (huniq : ∀ p ∈ db.payments, p.trxId ≠ jsTrim trxId) :
    Server.createPayment db now newId ⟨some email, some trxId, amount, type, userInfo⟩ =
      ⟨{ db with payments := db.payments ++
          [⟨newId, jsTrim email, jsTrim trxId, n, type.getD "topup", "pending",
            userInfo.getD ⟨none, none, none⟩, now⟩] },
        ⟨201, .paymentCreated "Payment request submitted successfully!"
          ⟨newId, jsTrim trxId, n, "pending", now⟩⟩⟩ := by
  have hnone : db.payments.find? (fun p => decide (p.trxId = trxId)) = none := by
    simpa using hfind
  have hany : db.payments.any (fun p => decide (p.trxId = jsTrim trxId)) = false := by
    simpa using huniq
  have h1 : ¬ (email = "" ∨ trxId = "" ∨
      toBoolean (amount.withDefault (.num (.fin 0))) = false) := by
    simp [he, ht, hb]
  simp only [Server.createPayment, Option.getD_some, if_neg h1, hl, hnone, hp, savePayment,
    validatePayment, checkRequired, castAmount, if_neg hte, if_neg htt, List.append_nil, hany]
  simp

/-! ## C22 -/

/-- C22 fails on the code: the amounts `0.5` (a number) and `"0.9"` (a string)
pass both checks of the create handler, since neither is falsy nor `<= 0`,
and `parseInt` truncates them to `0`; the request is answered 201 and the
payment is stored with `amount = 0`, which is not greater than 0. -/
theorem payment_stored_with_amount_zero :
    Server.createPayment emptyStore 1 "p1" halfPayment =
      ⟨⟨[], [], [], [⟨"p1", "amina@bubt.edu", "T1", 0, "topup", "pending",
          ⟨none, none, none⟩, 1⟩]⟩,
        ⟨201, .paymentCreated "Payment request submitted successfully!"
          ⟨"p1", "T1", 0, "pending", 1⟩⟩⟩ ∧
    Server.createPayment emptyStore 1 "p1" stringPayment =
      ⟨⟨[], [], [], [⟨"p1", "amina@bubt.edu", "T1", 0, "topup", "pending",
          ⟨none, none, none⟩, 1⟩]⟩,
        ⟨201, .paymentCreated "Payment request submitted successfully!"
          ⟨"p1", "T1", 0, "pending", 1⟩⟩⟩ := by
  have ht1 : jsTrim "T1" = "T1" := by decide
  have ht2 : jsTrim "amina@bubt.edu" = "amina@bubt.edu" := by decide
  constructor
  · have h := createPayment_of_valid emptyStore 1 "p1" "amina@bubt.edu" "T1"
      (.num (.fin (1 / 2))) none none 0 (by decide) (by decide)
      (by simp [JsVal.withDefault, toBoolean])
      (by simp [JsVal.withDefault, toNumber, leZero])
      (by simp [emptyStore]) (by decide) (by decide) parseInt_half (by simp [emptyStore])
    rw [ht1, ht2] at h
    exact h
  · have h := createPayment_of_valid emptyStore 1 "p1" "amina@bubt.edu" "T1"
      (.str "0.9") none none 0 (by decide) (by decide)
      (by decide)
      (by
        show leZero (stringToNumber "0.9") = false
        rw [stringToNumber_0_9]
        simp [leZero])
      (by simp [emptyStore]) (by decide) (by decide) parseInt_0_9 (by simp [emptyStore])
    rw [ht1, ht2] at h
    exact h

/-! ## Lemmas on login after a password reset -/

theorem find_username_after_replace (l : List Admin) (u : String) (a b : Admin)
    (h : l.find? (fun x => decide (x.username = u)) = some a) (hu : b.username = u)
    (hid : b._id = a._id) :
    (l.map fun x => if x._id = b._id then b else x).find? (fun x => decide (x.username = u))
      = some b := by
  induction l with
  | nil => simp at h
  | cons x xs ih =>
    by_cases hx : x.username = u
    · have hxa : x = a := by simpa [List.find?, hx] using h
      subst hxa
      simp [List.find?, hid, hu]
    · have hrest : xs.find? (fun x => decide (x.username = u)) = some a := by
        simpa [List.find?, hx] using h
      by_cases hxi : x._id = b._id
      · simp [List.find?, hxi, hu]
      · simp [List.find?, hxi, hx, ih hrest]

theorem findAdminByUsername_saveAdmin (db : Store) (a b : Admin) (hmem : a ∈ db.admins)
    (huniq : db.admins.Pairwise fun x y => x.username ≠ y.username)
    (hu : b.username = a.username) (hid : b._id = a._id) :
    findAdminByUsername (saveAdmin db b) a.username = some b := by
  unfold findAdminByUsername saveAdmin
  exact find_username_after_replace db.admins a.username a b
    (find_username_of_unique db.admins a hmem huniq) hu hid

theorem server_login_status (env : Env) (db : Store) (now : Nat) (u p : String) (a : Admin)
    (hfind : findAdminByUsername db u = some a) (hu : u ≠ "") :
    ((Server.login env db now ⟨some u, some p⟩).status = 200 ↔
      p ≠ "" ∧ env.bcryptCompare p a.password = true) := by
  by_cases hp : p = ""
  · simp [Server.login, hp]
  · cases hc : env.bcryptCompare p a.password <;> simp [Server.login, hu, hp, hfind, hc]

theorem controller_login_status (env : Env) (db : Store) (now : Nat) (u p : String)
    (a : Admin) (hfind : findAdminByUsername db u = some a) (hu : u ≠ "") :
    ((AuthController.login env db now ⟨some u, some p⟩).status = 200 ↔
      p ≠ "" ∧ env.bcryptCompare p a.password = true) := by
  by_cases hp : p = ""
  · simp [AuthController.login, hp]
  · cases hc : env.bcryptCompare p a.password <;>
      simp [AuthController.login, hu, hp, hfind, hc]

theorem server_reset_success (env : Env) (db : Store) (now : Nat) (e token newPassword : String)
    (a : Admin) (hfind : findAdminByEmail db e = some a)
    (hok : (Server.resetPassword env db now ⟨some e, some token, some newPassword⟩
      ).response.status = 200) :
    newPassword ≠ "" ∧
    (Server.resetPassword env db now ⟨some e, some token, some newPassword⟩).db =
      saveAdmin db { a with password := env.bcryptHash newPassword 12,
                            resetTokenHash := none, resetTokenExpires := none } := by
  by_cases h1 : e = "" ∨ token = "" ∨ newPassword = ""
  · simp [Server.resetPassword, h1] at hok
  · have hnp : newPassword ≠ "" := fun h => h1 (Or.inr (Or.inr h))
    refine ⟨hnp, ?_⟩
    by_cases h2 : jsLength newPassword < 6
    · simp [Server.resetPassword, h1, h2] at hok
    · simp only [Server.resetPassword, if_neg h1, if_neg h2, hfind] at hok ⊢
      cases hh : a.resetTokenHash with
      | none => simp [hh] at hok
      | some storedHash =>
        cases hx : a.resetTokenExpires with
        | none => simp [hh, hx] at hok
        | some expires =>
          simp only [hh, hx] at hok ⊢
          by_cases h3 : storedHash = ""
          · simp [h3] at hok
          · by_cases h4 : expires < now
            · simp [h3, h4] at hok
            · by_cases h5 : env.sha256Hex token ≠ storedHash
              · simp [h3, h4, h5] at hok
              · simp [h3, h4, h5]

theorem demoEnv_bcrypt (p q : String) (r : Nat) :
    demoEnv.bcryptCompare p (demoEnv.bcryptHash q r) = true ↔ p = q := by
  simp only [demoEnv, decide_eq_true_eq]
  constructor
  · intro h
    have hd := congrArg String.data h
    simp only [String.data_append] at hd
    have := List.append_cancel_left hd
    exact (String.ext this).symm
  · intro h
    rw [h]

/-! ## C23 -/

/-- C23 fails on `authController.resetPassword`.  In `demoEnv`, where
`bcrypt.compare(p, bcrypt.hash(q))` holds exactly when `p = q`,
`demoTokenAdmin` has the password `hunter2`, stored as `bcrypt:hunter2`, and
holds an unexpired token.  A reset whose new password is that stored string
assigns the same value to `password`, so the pre-save hook of `models/Admin.js`
sees no modification and does not hash: the stored field is the plaintext new
password, login with the new password is refused, and login with the previous
password `hunter2` still succeeds.  The handler of `server.js`, which hashes
explicitly, stores the hash of the new password on the same request; there
login with the new password succeeds and login with `hunter2` is refused. -/
theorem reset_to_stored_hash_keeps_old_password :
    (∀ (p q : String) (r : Nat),
      demoEnv.bcryptCompare p (demoEnv.bcryptHash q r) = true ↔ p = q) ∧
    AuthController.findAdminForReset demoTokenStore "admin@bubt.edu"
      (demoEnv.sha256Hex "tok") 500 = some demoTokenAdmin ∧
    (findAdminByUsername
      (AuthController.resetPassword demoEnv demoTokenStore 500 storedHashReset).db "admin"
      ).map (fun a => a.password) = some "bcrypt:hunter2" ∧
    (AuthController.login demoEnv
      (AuthController.resetPassword demoEnv demoTokenStore 500 storedHashReset).db 600
      ⟨some "admin", some "bcrypt:hunter2"⟩).status = 401 ∧
    (AuthController.login demoEnv
      (AuthController.resetPassword demoEnv demoTokenStore 500 storedHashReset).db 600
      ⟨some "admin", some "hunter2"⟩).status = 200 ∧
    (Server.resetPassword demoEnv demoTokenStore 500 storedHashReset).response.status = 200 ∧
    (findAdminByUsername
      (Server.resetPassword demoEnv demoTokenStore 500 storedHashReset).db "admin"
      ).map (fun a => a.password) = some "bcrypt:bcrypt:hunter2" ∧
    (Server.login demoEnv
      (Server.resetPassword demoEnv demoTokenStore 500 storedHashReset).db 600
      ⟨some "admin", some "bcrypt:hunter2"⟩).status = 200 ∧
    (Server.login demoEnv
      (Server.resetPassword demoEnv demoTokenStore 500 storedHashReset).db 600
      ⟨some "admin", some "hunter2"⟩).status = 401 :=
  ⟨demoEnv_bcrypt, by decide, by decide, by decide, by decide, by decide, by decide,
    by decide, by decide⟩

/-- Login after a reset that modified the password.  Assume
`bcrypt.compare(p, bcrypt.hash(q))` holds exactly when `p = q`, a bcrypt hash
differs from its input, usernames are unique in the store and the username of
`a` is not empty.  First part (`server.js`): if `a` is found by the email and
reset-password answers 200, then the stored password of `a` is
`bcrypt.hash(newPassword, 12)`, not the plaintext; login with the username and
`newPassword` answers 200, and login with any other password does not.
Second part (`authController.js`): if `a` is the administrator found by email,
token hash and unexpired expiry, the fields of the request are not empty, and
`newPassword` differs from the string stored in `a.password`, then the
pre-save hook stores `bcrypt.hash(newPassword, 10)`, and login behaves in the
same way.  In the case `newPassword = a.password` the hook does not hash. -/
theorem reset_then_login (env : Env) (db : Store) (a : Admin)
    (e token newPassword : String) (now tLogin : Nat)
    (hbcrypt : ∀ (p q : String) (r : Nat),
      env.bcryptCompare p (env.bcryptHash q r) = true ↔ p = q)
    (hhash : ∀ (q : String) (r : Nat), env.bcryptHash q r ≠ q)
    (huniq : db.admins.Pairwise fun x y => x.username ≠ y.username)
    (hu : a.username ≠ "") :
    (findAdminByEmail db e = some a →
      (Server.resetPassword env db now ⟨some e, some token, some newPassword⟩
        ).response.status = 200 →
      ∃ stored : Admin,
        findAdminByUsername
          (Server.resetPassword env db now ⟨some e, some token, some newPassword⟩).db
          a.username = some stored ∧
        stored.password = env.bcryptHash newPassword 12 ∧
        stored.password ≠ newPassword ∧
        (Server.login env
          (Server.resetPassword env db now ⟨some e, some token, some newPassword⟩).db tLogin
          ⟨some a.username, some newPassword⟩).status = 200 ∧
        ∀ p : String, p ≠ newPassword →
          (Server.login env
            (Server.resetPassword env db now ⟨some e, some token, some newPassword⟩).db tLogin
            ⟨some a.username, some p⟩).status ≠ 200) ∧
    (AuthController.findAdminForReset db e (env.sha256Hex token) now = some a →
      e ≠ "" → token ≠ "" → newPassword ≠ "" → newPassword ≠ a.password →
      ∃ stored : Admin,
        findAdminByUsername
          (AuthController.resetPassword env db now ⟨some e, some token, some newPassword⟩).db
          a.username = some stored ∧
        stored.password = env.bcryptHash newPassword 10 ∧
        stored.password ≠ newPassword ∧
        (AuthController.login env
          (AuthController.resetPassword env db now ⟨some e, some token, some newPassword⟩).db
          tLogin ⟨some a.username, some newPassword⟩).status = 200 ∧
        ∀ p : String, p ≠ newPassword →
          (AuthController.login env
            (AuthController.resetPassword env db now ⟨some e, some token, some newPassword⟩).db
            tLogin ⟨some a.username, some p⟩).status ≠ 200) := by
  constructor
  · intro hfind hok
    obtain ⟨hnp, hdb⟩ := server_reset_success env db now e token newPassword a hfind hok
    have hmem : a ∈ db.admins := by
      unfold findAdminByEmail at hfind
      exact List.mem_of_find?_eq_some hfind
    have hstored := findAdminByUsername_saveAdmin db a
      { a with password := env.bcryptHash newPassword 12,
               resetTokenHash := none, resetTokenExpires := none } hmem huniq rfl rfl
    rw [hdb]
    refine ⟨_, hstored, rfl, hhash newPassword 12, ?_, ?_⟩
    · rw [server_login_status env _ tLogin a.username newPassword _ hstored hu]
      exact ⟨hnp, (hbcrypt newPassword newPassword 12).mpr rfl⟩
    · intro p hp h200
      rw [server_login_status env _ tLogin a.username p _ hstored hu] at h200
      exact hp ((hbcrypt p newPassword 12).mp h200.2)
  · intro hfind he ht hnp hmod
    have hmem : a ∈ db.admins := by
      unfold AuthController.findAdminForReset at hfind
      exact List.mem_of_find?_eq_some hfind
    have hpre : preSave env a
        { a with password := newPassword, resetTokenHash := none, resetTokenExpires := none } =
        { a with password := env.bcryptHash newPassword 10,
                 resetTokenHash := none, resetTokenExpires := none } := by
      simp [preSave, hmod]
    have hdb : (AuthController.resetPassword env db now
        ⟨some e, some token, some newPassword⟩).db =
        saveAdmin db { a with password := env.bcryptHash newPassword 10,
                              resetTokenHash := none, resetTokenExpires := none } := by
      simp [AuthController.resetPassword, he, ht, hnp, hfind, hpre,
        AuthController.successfulResponse]
    have hstored := findAdminByUsername_saveAdmin db a
      { a with password := env.bcryptHash newPassword 10,
               resetTokenHash := none, resetTokenExpires := none } hmem huniq rfl rfl
    rw [hdb]
    refine ⟨_, hstored, rfl, hhash newPassword 10, ?_, ?_⟩
    · rw [controller_login_status env _ tLogin a.username newPassword _ hstored hu]
      exact ⟨hnp, (hbcrypt newPassword newPassword 10).mpr rfl⟩
    · intro p hp h200
      rw [controller_login_status env _ tLogin a.username p _ hstored hu] at h200
      exact hp ((hbcrypt p newPassword 10).mp h200.2)

end IdCardServer

namespace IdCardServer

theorem demoEnv_hash_ne (q : String) (r : Nat) : demoEnv.bcryptHash q r ≠ q := by
  intro h
  have hd := congrArg (fun s : String => s.data.length) h
  simp [demoEnv, String.data_append] at hd
  omega

/-- The theorem `reset_then_login` on `demoTokenAdmin`: after the password is
reset to `secret1` through `server.js`, login with `secret1` answers 200 and
login with the previous password `hunter2` does not. -/
theorem reset_then_login_witness :
    (Server.login demoEnv (Server.resetPassword demoEnv demoTokenStore 500 demoReset).db 600
      ⟨some "admin", some "secret1"⟩).status = 200 ∧
    (Server.login demoEnv (Server.resetPassword demoEnv demoTokenStore 500 demoReset).db 600
      ⟨some "admin", some "hunter2"⟩).status ≠ 200 :=
  ((reset_then_login demoEnv demoTokenStore demoTokenAdmin "admin@bubt.edu" "tok" "secret1"
    500 600 demoEnv_bcrypt demoEnv_hash_ne (by decide) (by decide)).1
    (by decide) (by decide)).elim fun _ h =>
      ⟨h.2.2.2.1, h.2.2.2.2 "hunter2" (by decide)⟩

end IdCardServer
